import Mathlib

/-!
Formal model of the Road Rage simulation core (pseudo-3D motorcycle racer):
vehicle physics, wipeout state machine, rival AI, melee combat, police
pursuit and the race state machine, shallowly embedded over exact rational
arithmetic.  JavaScript numbers are modelled as rationals; Math.sin and
Math.random are modelled as explicit oracle parameters (a function
argument for sin, explicit per-use draw arguments for random), so every
definition is executable and runs deterministically once the oracles are
fixed.  Rendering, audio, HUD, particle popups, the camera and the traffic
subsystem (which alters only health and wipeout flags, never positions)
are outside the modelled core.
-/

namespace RoadRage

/-- Truncated remainder as computed by the JavaScript percent operator:
a - b * trunc (a / b).  For a nonnegative dividend and positive divisor it
agrees with the mathematical remainder in [0, b). -/
def jsMod (a b : ℚ) : ℚ :=
  if 0 ≤ a / b then a - b * ((⌊a / b⌋ : ℤ) : ℚ) else a - b * ((⌈a / b⌉ : ℤ) : ℚ)

/-- Math.round: round half toward positive infinity. -/
def jsRound (q : ℚ) : ℚ := ((⌊q + 1/2⌋ : ℤ) : ℚ)

/-- Math.floor composed with a truncated percent, as used for segment
lookup: Math.floor (z / segLen) % len, for nonnegative z. -/
def segIdxOf (z : ℚ) (len : ℕ) : ℕ := (⌊z / 200⌋).toNat % len

/-- Signed wrapped distance between two track positions (rivals.ts and
part_009 both define this helper identically). -/
def wrappedDelta (a b total : ℚ) : ℚ :=
  let d := a - b
  let d := if total / 2 < d then d - total else d
  if d < -(total / 2) then d + total else d

-- ---------------------------------------------------------------------------
-- Player (player.ts)
-- ---------------------------------------------------------------------------

inductive WipeoutPhase
  | none | launch | tumble | getup | run
  deriving DecidableEq, Repr

inductive AnimFrame
  | straight | leanLeft | leanRight | wheelie | punchLeft | punchRight | wipeout
  deriving DecidableEq, Repr

/-- Per-tick input snapshot (the InputManager collaborator). -/
structure Inputs where
  accelDown : Bool
  brakeDown : Bool
  leftDown : Bool
  rightDown : Bool
  punchDown : Bool
  kickDown : Bool
  punchJust : Bool
  kickJust : Bool

/-- The Player record of player.ts.  The field leanAngle mirrors the
source field named lean. -/
structure PlayerS where
  x : ℚ
  z : ℚ
  speed : ℚ
  maxSpeed : ℚ
  accel : ℚ
  decel : ℚ
  braking : ℚ
  turnSpeed : ℚ
  health : ℚ
  maxHealth : ℚ
  isWipedOut : Bool
  wipeoutTimer : ℚ
  leanAngle : ℚ
  animFrame : AnimFrame
  wipeoutPhase : WipeoutPhase
  wipeoutPhaseTimer : ℚ
  riderOffsetX : ℚ
  riderOffsetY : ℚ
  riderRotation : ℚ
  bikeSlideX : ℚ
  bikeSlideSpeed : ℚ
  wheelieTimer : ℚ
  offroad : Bool
  draftBoost : ℚ
  gear : ℕ
  prevSpeed : ℚ

-- Physics constants from player.ts (0.6 = 3/5, 0.02 = 1/50 and so on).
def MAX_SPEED : ℚ := 300
def WIPEOUT_DURATION : ℚ := 2
def WIPEOUT_RESPAWN_HEALTH : ℚ := 40
def PHASE_LAUNCH : ℚ := 2/5
def PHASE_TUMBLE : ℚ := 1/2
def PHASE_GETUP : ℚ := 3/10
def PHASE_RUN : ℚ := 4/5
def OFFROAD_SPEED_CAP : ℚ := MAX_SPEED * (1/5)

/-- Centrifugal displacement term of player.ts line 224:
CENTRIFUGAL_FORCE (0.6) * speedRatio * curve * dt, where speedRatio is the
player speed over the player maxSpeed stat. -/
def playerCentrifugalDX (speed maxSpeed curve dt : ℚ) : ℚ :=
  (3/5) * (speed / maxSpeed) * curve * dt

/-- Centrifugal displacement term of rivals.ts line 166:
CENTRIFUGAL_FORCE (0.3) * speedRatio * curve * dt with speedRatio
normalised by the constant 300. -/
def rivalCentrifugalDX (speed curve dt : ℚ) : ℚ :=
  (3/10) * (speed / 300) * curve * dt

/-- Centrifugal displacement term for the police unit (part_009 line 730):
0.3 * speedRatio * curve * dt with speedRatio = cop.speed / 300. -/
def copCentrifugalDX (speed curve dt : ℚ) : ℚ :=
  (3/10) * (speed / 300) * curve * dt

/-- The spec formula for centrifugal pull, written from the spec words:
curvature x (speed over maxSpeed) x a fixed coefficient, per tick. -/
def specSharedCentrifugal (coef speed maxSpeed curve dt : ℚ) : ℚ :=
  coef * (speed / maxSpeed) * curve * dt

/-- Gear-shift dip factor: the loop over GEAR_THRESHOLDS [0.33, 0.66] with
zone 0.03 and dip 0.35, unrolled (the loop breaks at the first threshold
within the zone). -/
def gearDipFor (r : ℚ) : ℚ :=
  if |r - 33/100| < 3/100 then 1 - (7/20) * (1 - |r - 33/100| / (3/100))
  else if |r - 66/100| < 3/100 then 1 - (7/20) * (1 - |r - 66/100| / (3/100))
  else 1

/-- Acceleration / braking / friction section of updatePlayer. -/
def accelStage (inp : Inputs) (dt : ℚ) (p : PlayerS) : PlayerS :=
  if inp.accelDown then
    let speedRatio := p.speed / p.maxSpeed
    let baseFactor := 1 - speedRatio * speedRatio
    let gearDip := gearDipFor speedRatio
    let g : ℕ := if speedRatio < 33/100 then 1 else if speedRatio < 66/100 then 2 else 3
    { p with gear := g, speed := p.speed + p.accel * baseFactor * gearDip * dt }
  else if inp.brakeDown then
    { p with speed := p.speed - p.braking * dt }
  else
    { p with speed := p.speed - p.decel * dt }

/-- A nearby rival as passed to updatePlayer for drafting (only x and z
are read by the drafting check). -/
structure DraftRival where
  x : ℚ
  z : ℚ

/-- Drafting (slipstream) section: the first rival ahead within
DRAFT_Z_RANGE (300) and DRAFT_X_RANGE (0.25) grants a speed bonus of
maxSpeed * 0.08 * dt. -/
def draftStage (nearby : List DraftRival) (dt : ℚ) (p : PlayerS) : PlayerS :=
  let p := { p with draftBoost := 0 }
  match nearby.find? (fun r =>
      let dz := r.z - p.z
      decide (0 < dz) && decide (dz < 300) && decide (|r.x - p.x| < 1/4)) with
  | some _ => { p with draftBoost := 2/25, speed := p.speed + p.maxSpeed * (2/25) * dt }
  | none => p

/-- Off-road penalty section: above the cap the speed bleeds at 2.5x the
brake rate; the lateral offset receives a position-keyed sine rumble of
amplitude 0.02 plus a random term of amplitude 0.01 (rumbleRnd is the
Math.random draw of this tick, in [0,1)). -/
def offroadStage (sinq : ℚ → ℚ) (rumbleRnd : ℚ) (dt : ℚ) (p : PlayerS) : PlayerS :=
  let isOff := decide (1 < |p.x|)
  let p := { p with offroad := isOff }
  if 1 < |p.x| then
    let p := if OFFROAD_SPEED_CAP < p.speed
      then { p with speed := p.speed - p.braking * (5/2) * dt } else p
    { p with x := p.x + sinq (p.z * 40) * (1/50) + (rumbleRnd - 1/2) * (1/50) * (1/2) }
  else p

/-- Speed clamp to [0, maxSpeed]. -/
def clampStage (p : PlayerS) : PlayerS :=
  { p with speed := max 0 (min p.speed p.maxSpeed) }

/-- Steering input resolved exactly as in the source: left sets -1, a held
right key then overrides with 1. -/
def steeringOf (inp : Inputs) : ℚ :=
  if inp.rightDown then 1 else if inp.leftDown then -1 else 0

/-- Steering section (reads the clamped speed). -/
def steerStage (inp : Inputs) (dt : ℚ) (p : PlayerS) : PlayerS :=
  let speedRatio := p.speed / p.maxSpeed
  let baseTurn := 1 - speedRatio * (3/4)
  let trailBrake : ℚ := if inp.accelDown then 1 else 7/5
  let turnFactor := baseTurn * trailBrake
  let steering := steeringOf inp
  if steering ≠ 0 then { p with x := p.x + steering * p.turnSpeed * turnFactor * dt } else p

/-- Centrifugal section: subtract the player centrifugal term for the
curve of the current segment. -/
def centrifugalStage (road : List ℚ) (dt : ℚ) (p : PlayerS) : PlayerS :=
  let curve := road.getD (segIdxOf p.z road.length) 0
  { p with x := p.x - playerCentrifugalDX p.speed p.maxSpeed curve dt }

/-- Visual lean easing toward the steering direction or the curve. -/
def leanStage (inp : Inputs) (road : List ℚ) (dt : ℚ) (p : PlayerS) : PlayerS :=
  let curve := road.getD (segIdxOf p.z road.length) 0
  let speedRatio := p.speed / p.maxSpeed
  let steering := steeringOf inp
  let targetTilt := if steering ≠ 0 then steering else -curve * speedRatio * (1/2)
  { p with leanAngle := p.leanAngle + (targetTilt - p.leanAngle) * min 1 (8 * dt) }

/-- Wheelie detection and timer decay. -/
def wheelieStage (inp : Inputs) (dt : ℚ) (p : PlayerS) : PlayerS :=
  let speedRatio := p.speed / p.maxSpeed
  let p := if inp.accelDown ∧ speedRatio < 3/10 ∧ p.prevSpeed + 2 < p.speed
    then { p with wheelieTimer := 2/5 } else p
  { p with wheelieTimer := max 0 (p.wheelieTimer - dt) }

/-- Animation frame selection (determineAnimationFrame). -/
def animStage (inp : Inputs) (p : PlayerS) : PlayerS :=
  let f : AnimFrame :=
    if p.isWipedOut then .wipeout
    else if 0 < p.wheelieTimer then .wheelie
    else if inp.punchDown ∨ inp.kickDown then
      (if p.leanAngle ≤ 0 then .punchLeft else .punchRight)
    else if p.leanAngle < -(3/10) then .leanLeft
    else if 3/10 < p.leanAngle then .leanRight
    else .straight
  { p with animFrame := f }

/-- Forward motion: z += speed * SEGMENT_LENGTH * dt (no wrap). -/
def moveStage (dt : ℚ) (p : PlayerS) : PlayerS :=
  { p with z := p.z + p.speed * 200 * dt }

/-- Wipeout trigger at the end of updatePlayer. -/
def wipeCheckStage (p : PlayerS) : PlayerS :=
  if p.health ≤ 0 then
    { p with isWipedOut := true, wipeoutTimer := WIPEOUT_DURATION,
             wipeoutPhase := .launch, wipeoutPhaseTimer := PHASE_LAUNCH,
             animFrame := .wipeout, health := 0,
             riderOffsetX := 0, riderOffsetY := 0, riderRotation := 0,
             bikeSlideX := 0, bikeSlideSpeed := p.speed * (3/5) }
  else p

/-- Duration of each wipeout phase. -/
def phaseDuration : WipeoutPhase → ℚ
  | .none => 0
  | .launch => PHASE_LAUNCH
  | .tumble => PHASE_TUMBLE
  | .getup => PHASE_GETUP
  | .run => PHASE_RUN

/-- Phase advance inside updateWipeout once the phase timer has run out. -/
def wipeoutAdvancePhase (p : PlayerS) : PlayerS :=
  match p.wipeoutPhase with
  | .launch => { p with wipeoutPhase := .tumble, wipeoutPhaseTimer := PHASE_TUMBLE }
  | .tumble => { p with wipeoutPhase := .getup, wipeoutPhaseTimer := PHASE_GETUP }
  | .getup => { p with wipeoutPhase := .run, wipeoutPhaseTimer := PHASE_RUN }
  | _ => p

/-- Rational stand-in for the double Math.PI used in the visual rider
kinematics (exact float64 value). -/
def mathPi : ℚ := 884279719003555/281474976710656

/-- Per-phase wipeout kinematics (rider arc, tumble bounces, getup,
run-back).  Touches only visual offsets and speed, never the timers. -/
def wipeoutKinematics (sinq : ℚ → ℚ) (dt : ℚ) (p : PlayerS) : PlayerS :=
  let dur := phaseDuration p.wipeoutPhase
  let t := if 0 < dur then max 0 (min 1 (1 - p.wipeoutPhaseTimer / dur)) else 1
  match p.wipeoutPhase with
  | .launch =>
      let newSlide := max 0 (p.bikeSlideSpeed - 300 * dt)
      { p with riderOffsetX := t * 50,
               riderOffsetY := -(sinq (t * mathPi)) * 80,
               riderRotation := t * mathPi * 2,
               bikeSlideSpeed := newSlide,
               bikeSlideX := p.bikeSlideX + newSlide * dt,
               speed := max 0 (p.speed - p.braking * dt) }
  | .tumble =>
      let bounceAmp := 15 * (1 - t)
      let newSlide := max 0 (p.bikeSlideSpeed - 400 * dt)
      { p with riderOffsetX := 50 + t * 10,
               riderOffsetY := -|sinq (t * mathPi * 3)| * bounceAmp,
               riderRotation := p.riderRotation + dt * mathPi * 3 * (1 - t),
               bikeSlideSpeed := newSlide,
               bikeSlideX := p.bikeSlideX + newSlide * dt,
               speed := max 0 (p.speed - p.braking * 2 * dt) }
  | .getup =>
      { p with riderRotation := p.riderRotation * max 0 (1 - 6 * dt),
               riderOffsetY := p.riderOffsetY * (1 - t),
               speed := max 0 (p.speed - p.braking * 3 * dt) }
  | .run =>
      { p with riderOffsetX := p.riderOffsetX * (1 - t),
               riderOffsetY := 0, riderRotation := 0, speed := 0 }
  | .none => p

/-- Lean wobble while airborne or tumbling, damping otherwise. -/
def wipeoutLeanStage (sinq : ℚ → ℚ) (p : PlayerS) : PlayerS :=
  if p.wipeoutPhase = .launch ∨ p.wipeoutPhase = .tumble then
    { p with leanAngle := sinq (p.wipeoutTimer * 12) * (1/2) }
  else
    { p with leanAngle := p.leanAngle * (9/10) }

/-- Recovery record assignment at the end of the wipeout. -/
def wipeoutRecover (p : PlayerS) : PlayerS :=
  { p with isWipedOut := false, wipeoutTimer := 0, wipeoutPhase := .none,
           wipeoutPhaseTimer := 0, health := WIPEOUT_RESPAWN_HEALTH,
           x := 0, leanAngle := 0, animFrame := .straight, wheelieTimer := 0,
           riderOffsetX := 0, riderOffsetY := 0, riderRotation := 0,
           bikeSlideX := 0, bikeSlideSpeed := 0, speed := 0 }

/-- updateWipeout of player.ts. -/
def updateWipeout (sinq : ℚ → ℚ) (dt : ℚ) (p : PlayerS) : PlayerS :=
  let p := { p with wipeoutTimer := p.wipeoutTimer - dt,
                    wipeoutPhaseTimer := p.wipeoutPhaseTimer - dt,
                    animFrame := AnimFrame.wipeout }
  let p := if p.wipeoutPhaseTimer ≤ 0 then wipeoutAdvancePhase p else p
  let p := wipeoutKinematics sinq dt p
  let p := wipeoutLeanStage sinq p
  let p := moveStage dt p
  if p.wipeoutTimer ≤ 0 then wipeoutRecover p else p

/-- updatePlayer of player.ts: the stages in source order.  rumbleRnd is
the Math.random draw consumed by the off-road rumble (unused on-track). -/
def updatePlayerCore (sinq : ℚ → ℚ) (rumbleRnd : ℚ) (inp : Inputs) (road : List ℚ)
    (nearby : List DraftRival) (dt : ℚ) (p : PlayerS) : PlayerS :=
  let p := { p with prevSpeed := p.speed }
  if p.isWipedOut then updateWipeout sinq dt p
  else
    let p := accelStage inp dt p
    let p := draftStage nearby dt p
    let p := offroadStage sinq rumbleRnd dt p
    let p := clampStage p
    let p := steerStage inp dt p
    let p := centrifugalStage road dt p
    let p := leanStage inp road dt p
    let p := wheelieStage inp dt p
    let p := animStage inp p
    let p := moveStage dt p
    wipeCheckStage p

-- ---------------------------------------------------------------------------
-- Rivals (rivals.ts)
-- ---------------------------------------------------------------------------

inductive Personality
  | aggressive | defensive | reckless
  deriving DecidableEq, Repr

/-- The Rival record of rivals.ts (rendering-only color fields omitted). -/
structure RivalS where
  x : ℚ
  z : ℚ
  speed : ℚ
  baseSpeed : ℚ
  health : ℚ
  maxHealth : ℚ
  isWipedOut : Bool
  wipeoutTimer : ℚ
  personality : Personality
  name : String
  targetX : ℚ
  laneChangeTimer : ℚ
  hitFlash : ℚ

/-- The Math.random draws one rival may consume in one updateRivals tick,
each in [0,1): the lane-pick draw inside pickTargetX, the lane-change
interval draw, and the reckless crash-chance draw. -/
structure RivalRand where
  pick : ℚ
  lane : ℚ
  crash : ℚ

/-- pickTargetX of rivals.ts: personality- and proximity-driven target
lane choice (rnd is the Math.random draw of the taken branch). -/
def pickTargetX (r : RivalS) (playerX dzToPlayer rnd : ℚ) : ℚ :=
  let nearPlayer := |dzToPlayer| < 2000
  match r.personality with
  | .aggressive =>
      if nearPlayer then playerX + (rnd - 1/2) * (2/25)
      else (rnd - 1/2) * (7/5)
  | .defensive =>
      if nearPlayer then
        let away : ℚ := if playerX < r.x then 4/5 else -(4/5)
        max (-1) (min 1 (away + (rnd - 1/2) * (1/5)))
      else (rnd - 1/2) * (3/5)
  | .reckless => (rnd - 1/2) * 2

/-- The wipeout-recovery branch of updateRivals for a single rival. -/
def rivalWipeoutStep (totalZ dt : ℚ) (r : RivalS) : RivalS :=
  let r := { r with wipeoutTimer := r.wipeoutTimer - dt,
                    speed := max 0 (r.speed - r.baseSpeed * 2 * dt) }
  let r := if r.wipeoutTimer ≤ 0 then
      { r with isWipedOut := false, health := r.maxHealth, speed := r.baseSpeed * (1/2) }
    else r
  { r with z := jsMod (r.z + r.speed * 200 * dt) totalZ }

/-- Target speed of a rival this tick: baseline with the position-keyed
oscillation, the personality multiplier and rubber banding against the
wrapped distance dz to the player. -/
def rivalTargetSpeed (sinq : ℚ → ℚ) (dz : ℚ) (r : RivalS) : ℚ :=
  let noise := sinq (r.z * (1/1000) + r.baseSpeed) * (1/10)
  let t := r.baseSpeed * (1 + noise)
  let t :=
    match r.personality with
    | .reckless => t * (28/25)
    | .defensive => t * (19/20)
    | .aggressive => t
  if dz < -5000 then t * (23/20)
  else if 5000 < dz then t * (22/25)
  else t

/-- Smooth approach to the target speed, floored at zero. -/
def rivalSpeedStage (sinq : ℚ → ℚ) (dz dt : ℚ) (r : RivalS) : RivalS :=
  { r with speed := max 0 (r.speed + (rivalTargetSpeed sinq dz r - r.speed) * 2 * dt) }

/-- Lane-change AI: on timer expiry pick a new target lane and re-arm the
timer with a personality-specific interval plus a random slack. -/
def rivalLaneStage (playerX dz dt : ℚ) (rnd : RivalRand) (r : RivalS) : RivalS :=
  let r := { r with laneChangeTimer := r.laneChangeTimer - dt }
  if r.laneChangeTimer ≤ 0 then
    let interval : ℚ :=
      match r.personality with
      | .aggressive => 3/2
      | .reckless => 3/4
      | .defensive => 4
    { r with targetX := pickTargetX r playerX dz rnd.pick,
             laneChangeTimer := interval + rnd.lane * interval }
  else r

/-- Smooth steering toward the target lane at the personality gain,
clamped to the track, then the shared centrifugal pull. -/
def rivalSteerStage (curve dt : ℚ) (r : RivalS) : RivalS :=
  let steerMult : ℚ :=
    match r.personality with
    | .reckless => 5/2
    | .aggressive => 9/5
    | .defensive => 6/5
  let r := { r with x := max (-1) (min 1 (r.x + (r.targetX - r.x) * (steerMult * dt))) }
  { r with x := r.x - rivalCentrifugalDX r.speed curve dt }

/-- Wrapped forward motion of a rival. -/
def rivalMoveStage (totalZ dt : ℚ) (r : RivalS) : RivalS :=
  { r with z := jsMod (r.z + r.speed * 200 * dt) totalZ }

/-- Reckless crash roll: on sharp curves at high speed ratio a crash draw
under 0.003 wipes the rival out. -/
def rivalCrashStage (curve : ℚ) (rnd : RivalRand) (r : RivalS) : RivalS :=
  if r.personality = .reckless ∧ ¬ r.isWipedOut ∧ 3/10 < |curve| ∧
      7/10 < r.speed / 300 ∧ rnd.crash < 3/1000 then
    { r with isWipedOut := true, wipeoutTimer := 2, health := 0, speed := r.speed * (1/5) }
  else r

/-- Collision check against the player: within the wrapped-z and lateral
thresholds the rival slows, loses health (wiping out at zero) and the
player is flagged as struck. -/
def rivalCollisionStage (player : PlayerS) (totalZ : ℚ) (r : RivalS) : RivalS × Bool :=
  if ¬ player.isWipedOut then
    if |wrappedDelta r.z player.z totalZ| < 100 ∧ |r.x - player.x| < 3/10 then
      let r := { r with speed := r.speed * (23/25), health := r.health - 5 }
      let r := if r.health ≤ 0 then { r with isWipedOut := true, wipeoutTimer := 2 } else r
      (r, true)
    else (r, false)
  else (r, false)

/-- One rival iteration of updateRivals, stages in source order.  Returns
the updated rival and whether this rival collided with the player. -/
def updateRival (sinq : ℚ → ℚ) (player : PlayerS) (road : List ℚ) (dt : ℚ)
    (rnd : RivalRand) (r : RivalS) : RivalS × Bool :=
  let totalZ := (road.length : ℚ) * 200
  let r := if 0 < r.hitFlash then { r with hitFlash := max 0 (r.hitFlash - dt * 8) } else r
  if r.isWipedOut then (rivalWipeoutStep totalZ dt r, false)
  else
    let dz := wrappedDelta r.z player.z totalZ
    let r := rivalSpeedStage sinq dz dt r
    let r := rivalLaneStage player.x dz dt rnd r
    let curve := road.getD (segIdxOf r.z road.length) 0
    let r := rivalSteerStage curve dt r
    let r := rivalMoveStage totalZ dt r
    let r := rivalCrashStage curve rnd r
    rivalCollisionStage player totalZ r

/-- updateRivals of rivals.ts: each rival updates independently against
the (already advanced) player; the return flag is true when any rival
collided with the player. -/
def updateRivals (sinq : ℚ → ℚ) (player : PlayerS) (road : List ℚ) (dt : ℚ)
    (rnds : List RivalRand) (rivals : List RivalS) : List RivalS × Bool :=
  let upd := (rivals.zip rnds).map (fun pr => updateRival sinq player road dt pr.2 pr.1)
  (upd.map Prod.fst, upd.any Prod.snd)

-- ---------------------------------------------------------------------------
-- Police pursuit (part_009)
-- ---------------------------------------------------------------------------

/-- The PoliceCop record. -/
structure PoliceCop where
  x : ℚ
  z : ℚ
  speed : ℚ
  health : ℚ
  maxHealth : ℚ
  isWipedOut : Bool
  wipeoutTimer : ℚ
  active : Bool

/-- The PoliceState record. -/
structure PoliceState where
  combatCount : ℕ
  cop : PoliceCop
  respawnTimer : ℚ
  busted : Bool
  bustTimer : ℚ
  warningTimer : ℚ
  sirenPhase : ℚ
  sirenSoundActive : Bool

def COMBAT_THRESHOLD : ℕ := 5
def COP_HEALTH : ℚ := 150
def COP_WIPEOUT_DURATION : ℚ := 5
def COP_RESPAWN_DELAY : ℚ := 30
def BUST_RANGE_X : ℚ := 1/5
def BUST_RANGE_Z : ℚ := 150
def BUST_TIME : ℚ := 3

/-- spawnCop: the unit appears behind the player at 0.8x its speed. -/
def spawnCop (player : PlayerS) (totalZ : ℚ) (cop : PoliceCop) : PoliceCop :=
  { cop with active := true, isWipedOut := false, health := COP_HEALTH,
             speed := player.speed * (4/5), x := player.x,
             z := jsMod (player.z - 3000 + totalZ) totalZ }

/-- The spawn-logic section of updatePolice (runs while the cop is
inactive and the combat counter has crossed the threshold). -/
def policeSpawnStage (player : PlayerS) (totalZ dt : ℚ) (s : PoliceState) : PoliceState :=
  if ¬ s.cop.active ∧ COMBAT_THRESHOLD ≤ s.combatCount then
    if s.cop.isWipedOut then
      let s := { s with respawnTimer := s.respawnTimer - dt }
      if s.respawnTimer ≤ 0 then
        { s with cop := spawnCop player totalZ s.cop, warningTimer := 2,
                 sirenSoundActive := true }
      else s
    else
      { s with cop := spawnCop player totalZ s.cop, warningTimer := 2,
               sirenSoundActive := true }
  else s

/-- The wipeout-recovery branch of updatePolice: the unit decelerates and
drifts; once the wipeout timer runs out it deactivates, heals, and arms
the respawn timer. -/
def policeWipeoutStage (totalZ dt : ℚ) (s : PoliceState) : PoliceState :=
  let cop := { s.cop with wipeoutTimer := s.cop.wipeoutTimer - dt,
                          speed := max 0 (s.cop.speed - 200 * dt) }
  let cop := { cop with z := jsMod (cop.z + cop.speed * 200 * dt) totalZ }
  if cop.wipeoutTimer ≤ 0 then
    { s with cop := { cop with active := false, isWipedOut := false, health := COP_HEALTH },
             respawnTimer := COP_RESPAWN_DELAY, sirenSoundActive := false }
  else { s with cop := cop }

/-- The chase-AI section of updatePolice: speed converges toward 1.1x the
player maxSpeed, steering converges toward the player lane, the shared
centrifugal term applies, and the position advances wrapped. -/
def policeChase (player : PlayerS) (road : List ℚ) (dt : ℚ) (cop : PoliceCop) : PoliceCop :=
  let totalZ := (road.length : ℚ) * 200
  let targetSpeed := player.maxSpeed * (11/10)
  let cop := { cop with speed := max 0 (cop.speed + (targetSpeed - cop.speed) * 2 * dt) }
  let cop := { cop with x := max (-1) (min 1 (cop.x + (player.x - cop.x) * ((5/2) * dt))) }
  let segIdx := segIdxOf cop.z road.length
  let curve := road.getD segIdx 0
  let cop := { cop with x := cop.x - copCentrifugalDX cop.speed curve dt }
  { cop with z := jsMod (cop.z + cop.speed * 200 * dt) totalZ }

/-- The bust-timer proximity condition, evaluated on the post-chase cop
position: wrapped z-distance under BUST_RANGE_Z, lateral distance under
BUST_RANGE_X, player not wiped out. -/
def bustProximity (cop : PoliceCop) (player : PlayerS) (totalZ : ℚ) : Prop :=
  |wrappedDelta cop.z player.z totalZ| < BUST_RANGE_Z ∧
  |cop.x - player.x| < BUST_RANGE_X ∧ player.isWipedOut = false

instance (cop : PoliceCop) (player : PlayerS) (totalZ : ℚ) :
    Decidable (bustProximity cop player totalZ) := by
  unfold bustProximity; infer_instance

/-- The bust-check section of updatePolice. -/
def policeBustStage (player : PlayerS) (totalZ dt : ℚ) (s : PoliceState) : PoliceState :=
  if bustProximity s.cop player totalZ then
    let s := { s with bustTimer := s.bustTimer + dt }
    if BUST_TIME ≤ s.bustTimer then { s with busted := true } else s
  else
    { s with bustTimer := max 0 (s.bustTimer - dt * (1/2)) }

/-- updatePolice of part_009: early exit when busted, siren and warning
timers, spawn logic, wipeout recovery, chase AI and the bust check. -/
def updatePolice (player : PlayerS) (road : List ℚ) (dt : ℚ) (s : PoliceState) : PoliceState :=
  if s.busted then s else
  let totalZ := (road.length : ℚ) * 200
  let s := { s with sirenPhase := s.sirenPhase + dt,
                    warningTimer := max 0 (s.warningTimer - dt) }
  let s := policeSpawnStage player totalZ dt s
  if ¬ s.cop.active then s else
  if s.cop.isWipedOut then policeWipeoutStage totalZ dt s
  else
    let s := { s with cop := policeChase player road dt s.cop }
    policeBustStage player totalZ dt s

/-- incrementCombatCount. -/
def incrementCombatCount (s : PoliceState) : PoliceState :=
  { s with combatCount := s.combatCount + 1 }

/-- hitCop of part_009: damage, slowdown, 500-unit knockback with the
999999 underflow guard, and the wipeout trigger at zero health. -/
def hitCop (damage : ℚ) (s : PoliceState) : PoliceState :=
  if ¬ s.cop.active ∨ s.cop.isWipedOut then s else
  let cop := { s.cop with health := s.cop.health - damage, speed := s.cop.speed * (7/10) }
  let cop := { cop with z := cop.z - 500 }
  let cop := if cop.z < 0 then { cop with z := cop.z + 999999 } else cop
  let cop := if cop.health ≤ 0 then
      { cop with isWipedOut := true, wipeoutTimer := COP_WIPEOUT_DURATION, health := 0 }
    else cop
  { s with cop := cop }

inductive Side
  | left | right
  deriving DecidableEq, Repr

/-- checkCopHit of part_009: is the player attack in range of the cop. -/
def checkCopHit (s : PoliceState) (player : PlayerS) (side : Side)
    (rangeX rangeZ totalZ : ℚ) : Bool :=
  if ¬ s.cop.active ∨ s.cop.isWipedOut then false else
  let dz := wrappedDelta s.cop.z player.z totalZ
  if rangeZ < |dz| then false else
  let dx := s.cop.x - player.x
  if rangeX < |dx| then false
  else if side = .left ∧ 0 < dx then false
  else if side = .right ∧ dx < 0 then false
  else true

-- ---------------------------------------------------------------------------
-- Combat system (the combat module bundled in table-art.ts)
-- ---------------------------------------------------------------------------

inductive AttackPhase
  | NONE | WINDUP | ACTIVE | RECOVERY
  deriving DecidableEq, Repr

inductive WeaponType
  | fist | chain | club
  deriving DecidableEq, Repr

/-- A held weapon: type plus remaining uses (-1 = infinite fist). -/
structure Weapon where
  type : WeaponType
  uses : ℤ
  deriving DecidableEq, Repr

-- WEAPON_STATS table, one accessor per column.
def wDamage : WeaponType → ℚ
  | .fist => 15 | .chain => 25 | .club => 35

def wRangeX : WeaponType → ℚ
  | .fist => 3/10 | .chain => 9/20 | .club => 7/20

def wRangeZ : WeaponType → ℚ
  | .fist => 150 | .chain => 200 | .club => 180

def wCooldown : WeaponType → ℚ
  | .fist => 2/5 | .chain => 3/5 | .club => 4/5

def wMaxUses : WeaponType → ℤ
  | .fist => -1 | .chain => 3 | .club => 5

inductive AtkType
  | punch | kick
  deriving DecidableEq, Repr

/-- Per-rival combat state. -/
structure RivalCombatState where
  isAttacking : Bool
  attackTimer : ℚ
  cooldownTimer : ℚ
  wasHitRecently : Bool
  wasHitTimer : ℚ
  telegraphing : Bool
  telegraphTimer : ℚ

def initRivalCombatState : RivalCombatState :=
  { isAttacking := false, attackTimer := 0, cooldownTimer := 0,
    wasHitRecently := false, wasHitTimer := 0,
    telegraphing := false, telegraphTimer := 0 }

/-- A weapon pickup lying on the road. -/
structure WeaponPickupS where
  type : WeaponType
  z : ℚ
  x : ℚ
  collected : Bool

/-- A resolved combat hit; targetIndex -1 means the player was hit. -/
structure CombatHitS where
  targetIndex : ℤ
  atype : AtkType
  damage : ℚ
  knockbackX : ℚ
  isCritical : Bool

/-- The CombatState record; the hitSet list models the per-swing
Set of already-hit rival indices. -/
structure CombatState where
  isAttacking : Bool
  attackType : Option AtkType
  attackSide : Side
  attackTimer : ℚ
  attackDuration : ℚ
  cooldown : ℚ
  cooldownTimer : ℚ
  damagePunch : ℚ
  damageKick : ℚ
  rangeX : ℚ
  rangeZ : ℚ
  rivalStates : List RivalCombatState
  hitSet : List ℕ
  attackPhase : AttackPhase
  weapon : Weapon
  weaponPickups : List WeaponPickupS
  comboHits : List ℚ
  comboCount : ℕ

def WIND_UP : ℚ := 1/10
def ACTIVE_WINDOW : ℚ := 3/20
def RECOVERY : ℚ := 1/5
def TOTAL_ATTACK : ℚ := WIND_UP + ACTIVE_WINDOW + RECOVERY
def CRITICAL_CHANCE : ℚ := 1/10
def COMBO_WINDOW : ℚ := 3
def COMBO_THRESHOLD : ℕ := 3
def RIVAL_ATTACK_CHANCE : ℚ := 1/10
def RIVAL_ATTACK_RANGE_X : ℚ := 3/10
def RIVAL_ATTACK_RANGE_Z : ℚ := 150
def RIVAL_ATTACK_DURATION : ℚ := 7/20
def RIVAL_ATTACK_COOLDOWN : ℚ := 3/2
def RIVAL_KNOCKBACK_X : ℚ := 3/20
def RIVAL_TELEGRAPH_DURATION : ℚ := 2/5
def RIVAL_COUNTER_WINDOW : ℚ := 2
def PICKUP_RANGE_X : ℚ := 3/10
def PICKUP_RANGE_Z : ℚ := 100

/-- applyWeaponStats: derive damage / range / cooldown from the held
weapon type. -/
def applyWeaponStats (c : CombatState) : CombatState :=
  { c with damagePunch := wDamage c.weapon.type, damageKick := wDamage c.weapon.type,
           rangeX := wRangeX c.weapon.type, rangeZ := wRangeZ c.weapon.type,
           cooldown := wCooldown c.weapon.type }

/-- createCombatState with a given rival count. -/
def createCombatState (rivalCount : ℕ) : CombatState :=
  { isAttacking := false, attackType := none, attackSide := .right,
    attackTimer := 0, attackDuration := TOTAL_ATTACK,
    cooldown := wCooldown .fist, cooldownTimer := 0,
    damagePunch := wDamage .fist, damageKick := wDamage .fist,
    rangeX := wRangeX .fist, rangeZ := wRangeZ .fist,
    rivalStates := List.replicate rivalCount initRivalCombatState,
    hitSet := [], attackPhase := .NONE,
    weapon := { type := .fist, uses := -1 }, weaponPickups := [],
    comboHits := [], comboCount := 0 }

/-- One pickup test of updateWeaponPickups: within wrapped-z and lateral
range an uncollected pickup is consumed and immediately overwrites the
held weapon and its derived stats. -/
def collectPickup (totalZ : ℚ) (player : PlayerS) (c : CombatState)
    (pk : WeaponPickupS) : CombatState × WeaponPickupS :=
  if pk.collected then (c, pk) else
  if PICKUP_RANGE_Z < |wrappedDelta pk.z player.z totalZ| then (c, pk) else
  if PICKUP_RANGE_X < |pk.x - player.x| then (c, pk) else
  let c := { c with weapon := { type := pk.type, uses := wMaxUses pk.type } }
  (applyWeaponStats c, { pk with collected := true })

/-- updateWeaponPickups: fold the pickup test over the pickup list. -/
def updateWeaponPickups (totalZ : ℚ) (player : PlayerS) (c : CombatState) : CombatState :=
  let step := fun (acc : CombatState × List WeaponPickupS) pk =>
    let res := collectPickup totalZ player acc.1 pk
    (res.1, acc.2 ++ [res.2])
  let res := c.weaponPickups.foldl step (c, [])
  { res.1 with weaponPickups := res.2 }

/-- The consume-weapon-use tail of a landed player hit: a positive uses
counter is decremented; at zero the weapon reverts to the unlimited fist
and the derived stats are recomputed. -/
def consumeWeaponUse (c : CombatState) : CombatState :=
  if 0 < c.weapon.uses then
    let c := { c with weapon := { c.weapon with uses := c.weapon.uses - 1 } }
    if c.weapon.uses ≤ 0 then
      applyWeaponStats { c with weapon := { type := .fist, uses := -1 } }
    else c
  else c

/-- The hit test of checkPlayerHits: wrapped z within range, lateral
within range, and the rival on the declared attack side. -/
def rivalInRange (c : CombatState) (player : PlayerS) (totalZ : ℚ) (r : RivalS) : Bool :=
  if c.rangeZ < |wrappedDelta r.z player.z totalZ| then false else
  let dx := r.x - player.x
  if c.rangeX < |dx| then false
  else if c.attackSide = .left ∧ 0 < dx then false
  else if c.attackSide = .right ∧ dx < 0 then false
  else true

/-- Knockback applied to a struck rival: lateral push clamped to the
extended track bounds and a speed cut. -/
def applyHitToRival (knock : ℚ) (r : RivalS) : RivalS :=
  { r with x := max (-(3/2)) (min (3/2) (r.x + knock)), speed := r.speed * (7/10) }

/-- Mark rivalStates[i] as recently hit (for the defensive counter). -/
def markRecentlyHit (i : ℕ) (l : List RivalCombatState) : List RivalCombatState :=
  match l.get? i with
  | some rs => l.set i { rs with wasHitRecently := true, wasHitTimer := RIVAL_COUNTER_WINDOW }
  | none => l

/-- The combat / rival / emitted-hit bundle threaded through
checkPlayerHits. -/
structure HitsCtx where
  combat : CombatState
  rivals : List RivalS
  hits : List CombatHitS

/-- One loop iteration of checkPlayerHits for rival index i: skip members
of the per-swing hit set, skip wiped-out or out-of-range rivals; on a hit
record the index, push a combo entry, roll the critical (critRnd is the
Math.random draw), emit the hit, knock the rival back, mark it recently
hit, and consume a weapon use. -/
def playerHitOne (player : PlayerS) (totalZ critRnd : ℚ) (i : ℕ) (ctx : HitsCtx) : HitsCtx :=
  if i ∈ ctx.combat.hitSet then ctx else
  match ctx.rivals.get? i with
  | none => ctx
  | some r =>
    if r.isWipedOut then ctx else
    if ¬ rivalInRange ctx.combat player totalZ r then ctx else
    let c := { ctx.combat with hitSet := ctx.combat.hitSet ++ [i] }
    let c := { c with comboHits := c.comboHits ++ [0] }
    let isCrit : Bool := decide (critRnd < CRITICAL_CHANCE) ||
      decide (COMBO_THRESHOLD ≤ c.comboHits.length)
    let damage := if isCrit then jsRound (c.damagePunch * (3/2)) else c.damagePunch
    let pushDir : ℚ := if c.attackSide = .left then -1 else 1
    let knockbackX := pushDir * RIVAL_KNOCKBACK_X
    let hit : CombatHitS :=
      { targetIndex := (i : ℤ), atype := c.attackType.getD .punch,
        damage := damage, knockbackX := knockbackX, isCritical := isCrit }
    let rivals := ctx.rivals.set i (applyHitToRival knockbackX r)
    let c := { c with rivalStates := markRecentlyHit i c.rivalStates }
    let c := consumeWeaponUse c
    { combat := c, rivals := rivals, hits := ctx.hits ++ [hit] }

/-- checkPlayerHits: the loop over all rival indices. -/
def checkPlayerHits (player : PlayerS) (totalZ : ℚ) (critRnd : ℕ → ℚ)
    (ctx : HitsCtx) : HitsCtx :=
  (List.range ctx.rivals.length).foldl
    (fun acc i => playerHitOne player totalZ (critRnd i) i acc) ctx

/-- Output bundle of updatePlayerAttack / updateCombat. -/
structure AttackOut where
  combat : CombatState
  rivals : List RivalS
  hits : List CombatHitS

/-- The mid-swing section of updatePlayerAttack: derive WINDUP / ACTIVE /
RECOVERY from the (already advanced) attack timer, resolving hits only in
ACTIVE. -/
def attackResolve (player : PlayerS) (rivals : List RivalS) (totalZ : ℚ)
    (critRnd : ℕ → ℚ) (c : CombatState) : AttackOut :=
  if c.attackTimer < WIND_UP then
    { combat := { c with attackPhase := .WINDUP }, rivals := rivals, hits := [] }
  else if c.attackTimer < WIND_UP + ACTIVE_WINDOW then
    let ctx := checkPlayerHits player totalZ critRnd
      { combat := { c with attackPhase := .ACTIVE }, rivals := rivals, hits := [] }
    { combat := ctx.combat, rivals := ctx.rivals, hits := ctx.hits }
  else
    { combat := { c with attackPhase := .RECOVERY }, rivals := rivals, hits := [] }

/-- The swing-close section of updatePlayerAttack: once the total
duration has elapsed the swing ends and the per-swing hit set is
cleared. -/
def finishSwing (out : AttackOut) : AttackOut :=
  if out.combat.attackDuration ≤ out.combat.attackTimer then
    { out with combat := { out.combat with
        isAttacking := false, attackType := none, attackTimer := 0,
        attackPhase := AttackPhase.NONE, hitSet := ([] : List ℕ) } }
  else out

/-- updatePlayerAttack: cooldown decay; while a swing is running advance
the timer and run the resolve / close sections; otherwise sit in NONE and
start a new swing on a fresh punch or kick press, clearing the per-swing
hit set on WINDUP entry. -/
def updatePlayerAttack (player : PlayerS) (rivals : List RivalS) (inp : Inputs)
    (dt totalZ : ℚ) (critRnd : ℕ → ℚ) (c : CombatState) : AttackOut :=
  let c := if 0 < c.cooldownTimer then { c with cooldownTimer := c.cooldownTimer - dt } else c
  if c.isAttacking then
    finishSwing (attackResolve player rivals totalZ critRnd
      { c with attackTimer := c.attackTimer + dt })
  else
    let c := { c with attackPhase := .NONE }
    if 0 < c.cooldownTimer ∨ player.isWipedOut then
      { combat := c, rivals := rivals, hits := [] }
    else
      let atype : Option AtkType :=
        if inp.punchJust then some .punch
        else if inp.kickJust then some .kick
        else none
      match atype with
      | none => { combat := c, rivals := rivals, hits := [] }
      | some ty =>
        let side : Side := if player.leanAngle ≤ 0 then .left else .right
        { combat := { c with isAttacking := true, attackType := some ty, attackSide := side,
                             attackTimer := 0, attackDuration := TOTAL_ATTACK,
                             cooldownTimer := c.cooldown, attackPhase := .WINDUP,
                             hitSet := [] },
          rivals := rivals, hits := [] }

/-- One loop iteration of updateRivalAttacks for a rival and its combat
state: cooldown and recently-hit decay, the telegraph edge-in, the swing
with a single mid-point damage event against the player, and the
personality-gated attack starts (atkRnd is the Math.random draw of the
aggressive branch). -/
def rivalAttackDecay (dt : ℚ) (rs : RivalCombatState) : RivalCombatState :=
  let rs := if 0 < rs.cooldownTimer then { rs with cooldownTimer := rs.cooldownTimer - dt } else rs
  if rs.wasHitRecently then
    let rs := { rs with wasHitTimer := rs.wasHitTimer - dt }
    if rs.wasHitTimer ≤ 0 then { rs with wasHitRecently := false, wasHitTimer := 0 } else rs
  else rs

def rivalAttackCore (player : PlayerS) (totalZ dt atkRnd : ℚ)
    (rs : RivalCombatState) (rival : RivalS) :
    RivalCombatState × RivalS × List CombatHitS :=
  if rs.telegraphing then
    let rs := { rs with telegraphTimer := rs.telegraphTimer - dt }
    let dir : ℚ := if rival.x < player.x then 1 else -1
    let rival := { rival with x := max (-(3/2)) (min (3/2) (rival.x + dir * (1/2) * dt)) }
    let rs := if rs.telegraphTimer ≤ 0 then
        { rs with telegraphing := false, isAttacking := true, attackTimer := 0 }
      else rs
    (rs, rival, [])
  else if rs.isAttacking then
    let rs := { rs with attackTimer := rs.attackTimer + dt }
    let hits : List CombatHitS :=
      if RIVAL_ATTACK_DURATION * (1/2) ≤ rs.attackTimer ∧
          rs.attackTimer - dt < RIVAL_ATTACK_DURATION * (1/2) then
        if ¬ player.isWipedOut then
          let pushDir : ℚ := if rival.x < player.x then 1 else -1
          [{ targetIndex := -1, atype := .punch, damage := wDamage .fist,
             knockbackX := pushDir * RIVAL_KNOCKBACK_X, isCritical := false }]
        else []
      else []
    let rs := if RIVAL_ATTACK_DURATION ≤ rs.attackTimer then
        { rs with isAttacking := false, attackTimer := 0 }
      else rs
    (rs, rival, hits)
  else
    if rival.isWipedOut ∨ player.isWipedOut then (rs, rival, []) else
    if 0 < rs.cooldownTimer then (rs, rival, []) else
    if RIVAL_ATTACK_RANGE_Z < |wrappedDelta rival.z player.z totalZ| then (rs, rival, []) else
    if RIVAL_ATTACK_RANGE_X < |rival.x - player.x| then (rs, rival, []) else
    match rival.personality with
    | .aggressive =>
        if RIVAL_ATTACK_CHANCE < atkRnd then (rs, rival, [])
        else ({ rs with telegraphing := true, telegraphTimer := RIVAL_TELEGRAPH_DURATION,
                        cooldownTimer := RIVAL_ATTACK_COOLDOWN }, rival, [])
    | .defensive =>
        if ¬ rs.wasHitRecently then (rs, rival, [])
        else ({ rs with telegraphing := true,
                        telegraphTimer := RIVAL_TELEGRAPH_DURATION * (1/2),
                        cooldownTimer := RIVAL_ATTACK_COOLDOWN,
                        wasHitRecently := false, wasHitTimer := 0 }, rival, [])
    | .reckless => (rs, rival, [])

/-- rivalAttackOne: timer decay then the telegraph / swing / start
machine. -/
def rivalAttackOne (player : PlayerS) (totalZ dt atkRnd : ℚ)
    (rs : RivalCombatState) (rival : RivalS) :
    RivalCombatState × RivalS × List CombatHitS :=
  rivalAttackCore player totalZ dt atkRnd (rivalAttackDecay dt rs) rival

/-- updateRivalAttacks: the loop over all rival indices, threading the
rival-state list, the rival list and the emitted hits. -/
def updateRivalAttacks (player : PlayerS) (totalZ dt : ℚ) (atkRnd : ℕ → ℚ)
    (c : CombatState) (rivals : List RivalS) :
    CombatState × List RivalS × List CombatHitS :=
  let res := (List.range rivals.length).foldl
    (fun (acc : List RivalCombatState × List RivalS × List CombatHitS) i =>
      match acc.1.get? i, acc.2.1.get? i with
      | some rs, some rival =>
          let one := rivalAttackOne player totalZ dt (atkRnd i) rs rival
          (acc.1.set i one.1, acc.2.1.set i one.2.1, acc.2.2 ++ one.2.2)
      | _, _ => acc)
    (c.rivalStates, rivals, [])
  ({ c with rivalStates := res.1 }, res.2.1, res.2.2)

/-- updateCombat: pad the rival-state list, age and prune the combo
window, collect pickups, run the player attack machine, then the rival
attacks; the emitted hit lists are concatenated in that order. -/
def updateCombat (player : PlayerS) (rivals : List RivalS) (inp : Inputs)
    (dt totalZ : ℚ) (critRnd atkRnd : ℕ → ℚ) (c : CombatState) : AttackOut :=
  let c := { c with rivalStates :=
    c.rivalStates ++ List.replicate (rivals.length - c.rivalStates.length) initRivalCombatState }
  let pruned := (c.comboHits.map (· + dt)).filter (fun a => a ≤ COMBO_WINDOW)
  let c := { c with comboHits := pruned, comboCount := pruned.length }
  let c := updateWeaponPickups totalZ player c
  let out := updatePlayerAttack player rivals inp dt totalZ critRnd c
  let res := updateRivalAttacks player totalZ dt atkRnd out.combat out.rivals
  { combat := res.1, rivals := res.2.1, hits := out.hits ++ res.2.2 }

-- ---------------------------------------------------------------------------
-- Track constants (part_009) and race distance wiring (part_008, index.ts)
-- ---------------------------------------------------------------------------

def SEGMENT_LENGTH : ℚ := 200

/-- Per-track segment counts (TRACK_SEGMENT_COUNTS of part_009). -/
def TRACK_SEGMENT_COUNTS : List ℕ := [4000, 4500, 3500, 5000]

/-- Number of segments generateRoad builds for a track id (the id is
clamped to 0..3 first). -/
def generatedRoadLength (trackId : ℤ) : ℕ :=
  TRACK_SEGMENT_COUNTS.getD (max 0 (min 3 trackId)).toNat 0

/-- Total track length in world units for a track id. -/
def trackTotalLength (trackId : ℤ) : ℚ :=
  (generatedRoadLength trackId : ℚ) * SEGMENT_LENGTH

/-- Race distance set by createRaceData: RACE_SEGMENTS (5000) segments. -/
def initialRaceDistance : ℚ := 5000 * SEGMENT_LENGTH

/-- Race distance assigned by rebuildTrack in index.ts:
segments.length * SEGMENT_LENGTH for the freshly generated road. -/
def rebuildRaceDistance (trackId : ℤ) : ℚ :=
  (generatedRoadLength trackId : ℚ) * SEGMENT_LENGTH

-- ---------------------------------------------------------------------------
-- Race state machine, RACING tick (part_008)
-- ---------------------------------------------------------------------------

inductive RaceStateE
  | TITLE | TRACK_SELECT | BIKE_SHOP | COUNTDOWN | RACING | FINISHED | BUSTED
  deriving DecidableEq, Repr

/-- A recorded finish entry. -/
structure RaceResultS where
  name : String
  position : ℕ
  time : ℚ

/-- The race bookkeeping together with the entities it orchestrates
(menus, progression, popups, HUD and the camera are presentation state
outside the modelled core). -/
structure RaceWorld where
  state : RaceStateE
  raceDistance : ℚ
  playerFinished : Bool
  finishPosition : ℕ
  raceTimer : ℚ
  results : List RaceResultS
  nextPosition : ℕ
  hitFreezeTimer : ℚ
  prevHealth : ℚ
  police : PoliceState
  combat : CombatState
  player : PlayerS
  rivals : List RivalS

/-- All Math.random draws one RACING tick may consume. -/
structure TickRand where
  rumble : ℚ
  rivalRnds : List RivalRand
  critRnd : ℕ → ℚ
  atkRnd : ℕ → ℚ

/-- Application of one emitted combat hit inside the RACING branch: a
rival target takes damage, flashes, may wipe out, and arms the hit-freeze
timer; a player target loses health; both sides bump the police combat
counter. -/
def applyCombatHit (st : PlayerS × List RivalS × PoliceState × ℚ) (hit : CombatHitS) :
    PlayerS × List RivalS × PoliceState × ℚ :=
  if 0 ≤ hit.targetIndex then
    match st.2.1.get? hit.targetIndex.toNat with
    | none => st
    | some r =>
      let r := { r with health := r.health - hit.damage, hitFlash := 3/20 }
      let r := if r.health ≤ 0 then { r with isWipedOut := true, wipeoutTimer := 2 } else r
      (st.1, st.2.1.set hit.targetIndex.toNat r,
        incrementCombatCount st.2.2.1, 1/20)
  else
    ({ st.1 with health := st.1.health - hit.damage }, st.2.1,
      incrementCombatCount st.2.2.1, st.2.2.2)

/-- The rival finish-recording loop: a rival whose position has reached
the race distance and who has no result entry yet is recorded at the next
position. -/
def recordRivalFinishes (raceDistance raceTimer : ℚ) (rivals : List RivalS)
    (results : List RaceResultS) (nextPosition : ℕ) : List RaceResultS × ℕ :=
  rivals.foldl
    (fun acc r =>
      if raceDistance ≤ r.z ∧ ¬ acc.1.any (fun res => res.name = r.name) then
        (acc.1 ++ [{ name := r.name, position := acc.2, time := raceTimer }], acc.2 + 1)
      else acc)
    (results, nextPosition)

/-- The finish-order bookkeeping at the end of a RACING tick: record
rival finishes, then the player finish (transitioning to FINISHED), then
the all-rivals-finished forced finish. -/
def finishStage (w : RaceWorld) : RaceWorld :=
  let fin1 := recordRivalFinishes w.raceDistance w.raceTimer w.rivals w.results w.nextPosition
  let w := { w with results := fin1.1, nextPosition := fin1.2 }
  let entry : RaceResultS := { name := "YOU", position := w.nextPosition, time := w.raceTimer }
  let w :=
    if w.playerFinished = false ∧ w.raceDistance ≤ w.player.z then
      { w with playerFinished := true, finishPosition := w.nextPosition,
               results := w.results ++ [entry],
               nextPosition := w.nextPosition + 1, state := RaceStateE.FINISHED }
    else w
  let entry2 : RaceResultS := { name := "YOU", position := w.nextPosition, time := w.raceTimer }
  if w.playerFinished = false ∧ w.rivals.length ≤ w.results.length then
    { w with playerFinished := true, finishPosition := w.nextPosition,
             results := w.results ++ [entry2],
             state := RaceStateE.FINISHED }
  else w

/-- The tail of a RACING tick after the police update: on a bust the
race moves to the terminal BUSTED state with the player forced to last
place; otherwise the finish bookkeeping runs and prevHealth is
refreshed. -/
def racingResolve (w : RaceWorld) : RaceWorld :=
  if w.police.busted then
    { w with state := RaceStateE.BUSTED, playerFinished := true,
             finishPosition := w.rivals.length + 1 }
  else
    let w2 := finishStage w
    { w2 with prevHealth := w2.player.health }

/-- The RACING branch of updateRace, stages in source order: hit freeze,
race timer, player physics, rival AI (with the collision penalty on the
player), the combat system with hit application and the cop-hit check,
police pursuit with the BUSTED transition, then finish-order bookkeeping
(rival finishes, the player finish, and the all-rivals-finished forced
finish).  The traffic subsystem corresponds to the undefined optional
argument of updateRace and is skipped; popups, HUD and camera state are
presentation-only and not tracked. -/
def racingTick (sinq : ℚ → ℚ) (rand : TickRand) (inp : Inputs) (road : List ℚ)
    (dt : ℚ) (w : RaceWorld) : RaceWorld :=
  if 0 < w.hitFreezeTimer then { w with hitFreezeTimer := w.hitFreezeTimer - dt } else
  let totalLength := (road.length : ℚ) * 200
  let w := { w with raceTimer := w.raceTimer + dt }
  let player := updatePlayerCore sinq rand.rumble inp road
    (w.rivals.map (fun r => { x := r.x, z := r.z })) dt w.player
  let upd := updateRivals sinq player road dt rand.rivalRnds w.rivals
  let rivals := upd.1
  let player := if upd.2 ∧ ¬ player.isWipedOut then
      { player with speed := player.speed * (47/50), health := player.health - 3 }
    else player
  let out := updateCombat player rivals inp dt totalLength rand.critRnd rand.atkRnd w.combat
  let applied := out.hits.foldl applyCombatHit (player, out.rivals, w.police, w.hitFreezeTimer)
  let player := applied.1
  let rivals := applied.2.1
  let police := applied.2.2.1
  let w := { w with hitFreezeTimer := applied.2.2.2 }
  let police :=
    if out.combat.isAttacking ∧ out.combat.attackPhase = .ACTIVE ∧ police.cop.active then
      if checkCopHit police player out.combat.attackSide out.combat.rangeX
          out.combat.rangeZ totalLength then
        hitCop out.combat.damagePunch police
      else police
    else police
  let police := updatePolice player road dt police
  racingResolve { w with police := police, combat := out.combat,
                         player := player, rivals := rivals }

-- ---------------------------------------------------------------------------
-- Sample states for concrete evaluations
-- ---------------------------------------------------------------------------

/-- The all-zero sine oracle, used to fix Math.sin in concrete runs. -/
def zeroSin : ℚ → ℚ := fun _ => 0

/-- A player with createPlayer defaults. -/
def samplePlayer : PlayerS :=
  { x := 0, z := 0, speed := 0, maxSpeed := 300, accel := 200, decel := 100,
    braking := 400, turnSpeed := 3, health := 100, maxHealth := 100,
    isWipedOut := false, wipeoutTimer := 0, leanAngle := 0, animFrame := .straight,
    wipeoutPhase := .none, wipeoutPhaseTimer := 0, riderOffsetX := 0,
    riderOffsetY := 0, riderRotation := 0, bikeSlideX := 0, bikeSlideSpeed := 0,
    wheelieTimer := 0, offroad := false, draftBoost := 0, gear := 1, prevSpeed := 0 }

/-- A wiped-out player one tick from recovery (run phase). -/
def recoveringPlayer : PlayerS :=
  { samplePlayer with
    isWipedOut := true, wipeoutTimer := 1/100, wipeoutPhase := .run,
    wipeoutPhaseTimer := 1/100, speed := 50, x := 2 }

/-- No keys held or pressed. -/
def idleInputs : Inputs :=
  { accelDown := false, brakeDown := false, leftDown := false, rightDown := false,
    punchDown := false, kickDown := false, punchJust := false, kickJust := false }

/-- A rival with neutral timers. -/
def sampleRival : RivalS :=
  { x := 0, z := 0, speed := 0, baseSpeed := 280, health := 100, maxHealth := 100,
    isWipedOut := false, wipeoutTimer := 0, personality := .aggressive,
    name := "RAZOR", targetX := 0, laneChangeTimer := 1, hitFlash := 0 }

/-- A fixed random triple for a rival tick. -/
def sampleRivalRand : RivalRand := { pick := 0, lane := 0, crash := 1 }

/-- A flat 10-segment road (total length 2000). -/
def road10 : List ℚ := List.replicate 10 0

/-- A flat 100-segment road (total length 20000). -/
def road100 : List ℚ := List.replicate 100 0

/-- A player one segment before the 10-segment track wraps. -/
def wrapTestPlayer : PlayerS := { samplePlayer with z := 1999, speed := 10 }

/-- A rival at the top of the documented 0-300 speed scale, with the
player far ahead (rubber-band boost active). -/
def fastRival : RivalS := { sampleRival with speed := 300 }

/-- A player used as the chase target far along the track. -/
def farPlayer : PlayerS := { samplePlayer with z := 6000 }

/-- An inactive police state with createPoliceState defaults. -/
def samplePolice : PoliceState :=
  { combatCount := 0,
    cop := { x := 0, z := 0, speed := 0, health := COP_HEALTH, maxHealth := COP_HEALTH,
             isWipedOut := false, wipeoutTimer := 0, active := false },
    respawnTimer := 0, busted := false, bustTimer := 0, warningTimer := 0,
    sirenPhase := 0, sirenSoundActive := false }

/-- A police state whose cop is active and mid-wipeout, one tick from the
end of the wipeout, with the combat counter past the spawn threshold. -/
def wipedCopPolice : PoliceState :=
  { samplePolice with
    combatCount := 6,
    cop := { x := 0, z := 0, speed := 0, health := 0, maxHealth := COP_HEALTH,
             isWipedOut := true, wipeoutTimer := 1/100, active := true },
    sirenSoundActive := true }

/-- A police state with an active, healthy cop right next to the player. -/
def chasePolice : PoliceState :=
  { samplePolice with
    combatCount := 6,
    cop := { x := 0, z := 0, speed := 0, health := COP_HEALTH, maxHealth := COP_HEALTH,
             isWipedOut := false, wipeoutTimer := 0, active := true } }

/-- Fixed random draws for one RACING tick. -/
def sampleTickRand : TickRand :=
  { rumble := 0, rivalRnds := [sampleRivalRand],
    critRnd := fun _ => 1, atkRnd := fun _ => 1 }

/-- A freshly reset RACING world with one rival. -/
def sampleWorld : RaceWorld :=
  { state := .RACING, raceDistance := 1000000, playerFinished := false,
    finishPosition := 0, raceTimer := 0, results := [], nextPosition := 1,
    hitFreezeTimer := 0, prevHealth := 100, police := samplePolice,
    combat := createCombatState 1, player := samplePlayer, rivals := [sampleRival] }

/-- The weapon-related slice of a CombatState: the held weapon and the
stats derived from it. -/
structure WeaponView where
  weapon : Weapon
  damagePunch : ℚ
  damageKick : ℚ
  rangeX : ℚ
  rangeZ : ℚ
  cooldown : ℚ
  deriving DecidableEq

/-- Project a CombatState onto its weapon slice. -/
def weaponView (c : CombatState) : WeaponView :=
  { weapon := c.weapon, damagePunch := c.damagePunch, damageKick := c.damageKick,
    rangeX := c.rangeX, rangeZ := c.rangeZ, cooldown := c.cooldown }

/-- The weapon slice holding a given weapon with its derived stats. -/
def applyView (t : WeaponType) (u : ℤ) : WeaponView :=
  { weapon := { type := t, uses := u }, damagePunch := wDamage t, damageKick := wDamage t,
    rangeX := wRangeX t, rangeZ := wRangeZ t, cooldown := wCooldown t }

/-- consumeWeaponUse on the weapon slice. -/
def consumeView (v : WeaponView) : WeaponView :=
  if 0 < v.weapon.uses then
    if v.weapon.uses - 1 ≤ 0 then applyView WeaponType.fist (-1)
    else { v with weapon := { v.weapon with uses := v.weapon.uses - 1 } }
  else v

/-- An uncollected club pickup at the origin. -/
def clubPickup : WeaponPickupS :=
  { type := WeaponType.club, z := 0, x := 0, collected := false }

/-- A combat state holding a chain with 2 uses left. -/
def chainCombat2 : CombatState :=
  { createCombatState 1 with weapon := { type := WeaponType.chain, uses := 2 } }

/-- A combat state holding a chain with 1 use left. -/
def chainCombat1 : CombatState :=
  { createCombatState 1 with weapon := { type := WeaponType.chain, uses := 1 } }

/-- The per-tick inputs of one updatePlayerAttack call. -/
structure AtkTick where
  player : PlayerS
  rivals : List RivalS
  inp : Inputs
  dt : ℚ
  totalZ : ℚ
  critRnd : ℕ → ℚ

/-- updatePlayerAttack on a bundled tick. -/
def stepAttack (tk : AtkTick) (c : CombatState) : AttackOut :=
  updatePlayerAttack tk.player tk.rivals tk.inp tk.dt tk.totalZ tk.critRnd c

/-- All hits the player-attack machine emits over a tick sequence while
the current swing lasts (the trace stops once isAttacking falls). -/
def swingTrace (c : CombatState) : List AtkTick → List CombatHitS
  | [] => []
  | tk :: tks =>
    if c.isAttacking then
      let out := stepAttack tk c
      out.hits ++ swingTrace out.combat tks
    else []

/-- Inputs with only a fresh punch press. -/
def punchInputs : Inputs :=
  { idleInputs with punchJust := true }

/-- A combat state mid-swing, one tick short of the active window. -/
def activeCombat : CombatState :=
  { createCombatState 1 with
    isAttacking := true, attackTimer := 1/10,
    attackType := some AtkType.punch, attackPhase := AttackPhase.WINDUP }

/-- A bundled tick putting the sample rival in punching range. -/
def atkTick1 : AtkTick :=
  { player := samplePlayer, rivals := [sampleRival], inp := idleInputs,
    dt := 1/60, totalZ := 2000, critRnd := fun _ => 1 }

/-- The embedding of a rival index into the signed target-index space of
a combat hit. -/
def natIdx (n : ℕ) : ℤ := n

-- ===========================================================================
-- Theorems
-- ===========================================================================

-- General facts about the JavaScript remainder.

theorem jsMod_nonneg_lt (a b : ℚ) (ha : 0 ≤ a) (hb : 0 < b) :
    0 ≤ jsMod a b ∧ jsMod a b < b := by
  have hdiv : 0 ≤ a / b := div_nonneg ha hb.le
  have hbne : b ≠ 0 := hb.ne'
  have hkey : jsMod a b = b * Int.fract (a / b) := by
    rw [jsMod, if_pos hdiv, Int.fract]
    field_simp
  constructor
  · rw [hkey]; exact mul_nonneg hb.le (Int.fract_nonneg _)
  · rw [hkey]
    calc b * Int.fract (a / b) < b * 1 :=
          (mul_lt_mul_left hb).mpr (Int.fract_lt_one _)
    _ = b := mul_one b

-- Field-preservation lemmas for the wipeout stages.

theorem wipeoutAdvancePhase_timer (p : PlayerS) :
    (wipeoutAdvancePhase p).wipeoutTimer = p.wipeoutTimer := by
  unfold wipeoutAdvancePhase
  cases p.wipeoutPhase <;> rfl

theorem wipeoutKinematics_timer (sinq : ℚ → ℚ) (dt : ℚ) (p : PlayerS) :
    (wipeoutKinematics sinq dt p).wipeoutTimer = p.wipeoutTimer := by
  unfold wipeoutKinematics
  cases p.wipeoutPhase <;> rfl

theorem wipeoutLeanStage_timer (sinq : ℚ → ℚ) (p : PlayerS) :
    (wipeoutLeanStage sinq p).wipeoutTimer = p.wipeoutTimer := by
  unfold wipeoutLeanStage
  split <;> rfl

theorem moveStage_timer (dt : ℚ) (p : PlayerS) :
    (moveStage dt p).wipeoutTimer = p.wipeoutTimer := rfl

/-- Once the overall wipeout timer has run out this tick, updateWipeout
ends in the recovery record (for some intermediate state). -/
theorem updateWipeout_recovery_shape (sinq : ℚ → ℚ) (dt : ℚ) (p : PlayerS)
    (h : p.wipeoutTimer ≤ dt) :
    ∃ q, updateWipeout sinq dt p = wipeoutRecover q := by
  unfold updateWipeout
  set p1 : PlayerS := { p with wipeoutTimer := p.wipeoutTimer - dt,
                               wipeoutPhaseTimer := p.wipeoutPhaseTimer - dt,
                               animFrame := AnimFrame.wipeout } with hp1
  set p2 : PlayerS := if p1.wipeoutPhaseTimer ≤ 0 then wipeoutAdvancePhase p1 else p1 with hp2
  have h2 : p2.wipeoutTimer = p.wipeoutTimer - dt := by
    rw [hp2]; split
    · rw [wipeoutAdvancePhase_timer]
    · rfl
  have hT : (moveStage dt (wipeoutLeanStage sinq (wipeoutKinematics sinq dt p2))).wipeoutTimer
      = p.wipeoutTimer - dt := by
    rw [moveStage_timer, wipeoutLeanStage_timer, wipeoutKinematics_timer, h2]
  rw [if_pos]
  · exact ⟨_, rfl⟩
  · rw [hT]; linarith

/-- C3: the four wipeout phase durations LAUNCH, TUMBLE, GETUP, RUN sum
exactly to the configured total wipeout duration, and on any tick that
exhausts the wipeout timer the recovery assignment leaves the player with
the documented respawn health 40, lateral offset 0, speed 0, and no
longer wiped out. -/
theorem wipeout_durations_and_respawn :
    PHASE_LAUNCH + PHASE_TUMBLE + PHASE_GETUP + PHASE_RUN = WIPEOUT_DURATION ∧
    ∀ (sinq : ℚ → ℚ) (dt : ℚ) (p : PlayerS), p.wipeoutTimer ≤ dt →
      (updateWipeout sinq dt p).health = WIPEOUT_RESPAWN_HEALTH ∧
      (updateWipeout sinq dt p).x = 0 ∧
      (updateWipeout sinq dt p).speed = 0 ∧
      (updateWipeout sinq dt p).isWipedOut = false := by
  constructor
  · norm_num [PHASE_LAUNCH, PHASE_TUMBLE, PHASE_GETUP, PHASE_RUN, WIPEOUT_DURATION]
  · intro sinq dt p h
    obtain ⟨q, hq⟩ := updateWipeout_recovery_shape sinq dt p h
    rw [hq]
    exact ⟨rfl, rfl, rfl, rfl⟩

/-- Witness for C3 at a concrete wiped-out player one tick before
recovery. -/
theorem wipeout_durations_and_respawn_witness :
    recoveringPlayer.wipeoutTimer ≤ 1/60 ∧
    (updateWipeout zeroSin (1/60) recoveringPlayer).health = WIPEOUT_RESPAWN_HEALTH ∧
    (updateWipeout zeroSin (1/60) recoveringPlayer).x = 0 ∧
    (updateWipeout zeroSin (1/60) recoveringPlayer).speed = 0 ∧
    (updateWipeout zeroSin (1/60) recoveringPlayer).isWipedOut = false := by
  refine ⟨by norm_num [recoveringPlayer, samplePlayer], ?_⟩
  exact (wipeout_durations_and_respawn).2 zeroSin (1/60) recoveringPlayer
    (by norm_num [recoveringPlayer, samplePlayer])

-- Field-preservation lemmas for the updatePlayer stages.

@[simp] theorem accelStage_x (inp : Inputs) (dt : ℚ) (p : PlayerS) :
    (accelStage inp dt p).x = p.x := by
  unfold accelStage; split <;> (try split) <;> rfl

@[simp] theorem accelStage_z (inp : Inputs) (dt : ℚ) (p : PlayerS) :
    (accelStage inp dt p).z = p.z := by
  unfold accelStage; split <;> (try split) <;> rfl

@[simp] theorem accelStage_maxSpeed (inp : Inputs) (dt : ℚ) (p : PlayerS) :
    (accelStage inp dt p).maxSpeed = p.maxSpeed := by
  unfold accelStage; split <;> (try split) <;> rfl

@[simp] theorem draftStage_x (nearby : List DraftRival) (dt : ℚ) (p : PlayerS) :
    (draftStage nearby dt p).x = p.x := by
  unfold draftStage; dsimp only; split <;> rfl

@[simp] theorem draftStage_z (nearby : List DraftRival) (dt : ℚ) (p : PlayerS) :
    (draftStage nearby dt p).z = p.z := by
  unfold draftStage; dsimp only; split <;> rfl

@[simp] theorem draftStage_maxSpeed (nearby : List DraftRival) (dt : ℚ) (p : PlayerS) :
    (draftStage nearby dt p).maxSpeed = p.maxSpeed := by
  unfold draftStage; dsimp only; split <;> rfl

@[simp] theorem offroadStage_z (sinq : ℚ → ℚ) (r dt : ℚ) (p : PlayerS) :
    (offroadStage sinq r dt p).z = p.z := by
  unfold offroadStage; dsimp only; split <;> dsimp only <;> (try split) <;> rfl

@[simp] theorem offroadStage_maxSpeed (sinq : ℚ → ℚ) (r dt : ℚ) (p : PlayerS) :
    (offroadStage sinq r dt p).maxSpeed = p.maxSpeed := by
  unfold offroadStage; dsimp only; split <;> dsimp only <;> (try split) <;> rfl

@[simp] theorem clampStage_x (p : PlayerS) : (clampStage p).x = p.x := rfl

@[simp] theorem clampStage_z (p : PlayerS) : (clampStage p).z = p.z := rfl

@[simp] theorem clampStage_maxSpeed (p : PlayerS) : (clampStage p).maxSpeed = p.maxSpeed := rfl

@[simp] theorem clampStage_speed (p : PlayerS) :
    (clampStage p).speed = max 0 (min p.speed p.maxSpeed) := rfl

@[simp] theorem steerStage_z (inp : Inputs) (dt : ℚ) (p : PlayerS) :
    (steerStage inp dt p).z = p.z := by
  unfold steerStage; dsimp only; split <;> rfl

@[simp] theorem steerStage_speed (inp : Inputs) (dt : ℚ) (p : PlayerS) :
    (steerStage inp dt p).speed = p.speed := by
  unfold steerStage; dsimp only; split <;> rfl

@[simp] theorem steerStage_maxSpeed (inp : Inputs) (dt : ℚ) (p : PlayerS) :
    (steerStage inp dt p).maxSpeed = p.maxSpeed := by
  unfold steerStage; dsimp only; split <;> rfl

@[simp] theorem centrifugalStage_z (road : List ℚ) (dt : ℚ) (p : PlayerS) :
    (centrifugalStage road dt p).z = p.z := rfl

@[simp] theorem centrifugalStage_speed (road : List ℚ) (dt : ℚ) (p : PlayerS) :
    (centrifugalStage road dt p).speed = p.speed := rfl

@[simp] theorem centrifugalStage_maxSpeed (road : List ℚ) (dt : ℚ) (p : PlayerS) :
    (centrifugalStage road dt p).maxSpeed = p.maxSpeed := rfl

@[simp] theorem leanStage_x (inp : Inputs) (road : List ℚ) (dt : ℚ) (p : PlayerS) :
    (leanStage inp road dt p).x = p.x := rfl

@[simp] theorem leanStage_z (inp : Inputs) (road : List ℚ) (dt : ℚ) (p : PlayerS) :
    (leanStage inp road dt p).z = p.z := rfl

@[simp] theorem leanStage_speed (inp : Inputs) (road : List ℚ) (dt : ℚ) (p : PlayerS) :
    (leanStage inp road dt p).speed = p.speed := rfl

@[simp] theorem leanStage_maxSpeed (inp : Inputs) (road : List ℚ) (dt : ℚ) (p : PlayerS) :
    (leanStage inp road dt p).maxSpeed = p.maxSpeed := rfl

@[simp] theorem wheelieStage_x (inp : Inputs) (dt : ℚ) (p : PlayerS) :
    (wheelieStage inp dt p).x = p.x := by
  unfold wheelieStage; dsimp only; split <;> rfl

@[simp] theorem wheelieStage_z (inp : Inputs) (dt : ℚ) (p : PlayerS) :
    (wheelieStage inp dt p).z = p.z := by
  unfold wheelieStage; dsimp only; split <;> rfl

@[simp] theorem wheelieStage_speed (inp : Inputs) (dt : ℚ) (p : PlayerS) :
    (wheelieStage inp dt p).speed = p.speed := by
  unfold wheelieStage; dsimp only; split <;> rfl

@[simp] theorem wheelieStage_maxSpeed (inp : Inputs) (dt : ℚ) (p : PlayerS) :
    (wheelieStage inp dt p).maxSpeed = p.maxSpeed := by
  unfold wheelieStage; dsimp only; split <;> rfl

@[simp] theorem animStage_x (inp : Inputs) (p : PlayerS) : (animStage inp p).x = p.x := rfl

@[simp] theorem animStage_z (inp : Inputs) (p : PlayerS) : (animStage inp p).z = p.z := rfl

@[simp] theorem animStage_speed (inp : Inputs) (p : PlayerS) :
    (animStage inp p).speed = p.speed := rfl

@[simp] theorem animStage_maxSpeed (inp : Inputs) (p : PlayerS) :
    (animStage inp p).maxSpeed = p.maxSpeed := rfl

@[simp] theorem moveStage_x (dt : ℚ) (p : PlayerS) : (moveStage dt p).x = p.x := rfl

@[simp] theorem moveStage_z (dt : ℚ) (p : PlayerS) :
    (moveStage dt p).z = p.z + p.speed * 200 * dt := rfl

@[simp] theorem moveStage_speed (dt : ℚ) (p : PlayerS) : (moveStage dt p).speed = p.speed := rfl

@[simp] theorem moveStage_maxSpeed (dt : ℚ) (p : PlayerS) :
    (moveStage dt p).maxSpeed = p.maxSpeed := rfl

@[simp] theorem wipeCheckStage_x (p : PlayerS) : (wipeCheckStage p).x = p.x := by
  unfold wipeCheckStage; split <;> rfl

@[simp] theorem wipeCheckStage_z (p : PlayerS) : (wipeCheckStage p).z = p.z := by
  unfold wipeCheckStage; split <;> rfl

@[simp] theorem wipeCheckStage_speed (p : PlayerS) : (wipeCheckStage p).speed = p.speed := by
  unfold wipeCheckStage; split <;> rfl

@[simp] theorem wipeCheckStage_maxSpeed (p : PlayerS) :
    (wipeCheckStage p).maxSpeed = p.maxSpeed := by
  unfold wipeCheckStage; split <;> rfl

-- Wipeout-path lemmas for z, speed and maxSpeed.

@[simp] theorem wipeoutAdvancePhase_z (p : PlayerS) :
    (wipeoutAdvancePhase p).z = p.z := by
  unfold wipeoutAdvancePhase; cases p.wipeoutPhase <;> rfl

@[simp] theorem wipeoutAdvancePhase_speed (p : PlayerS) :
    (wipeoutAdvancePhase p).speed = p.speed := by
  unfold wipeoutAdvancePhase; cases p.wipeoutPhase <;> rfl

@[simp] theorem wipeoutAdvancePhase_maxSpeed (p : PlayerS) :
    (wipeoutAdvancePhase p).maxSpeed = p.maxSpeed := by
  unfold wipeoutAdvancePhase; cases p.wipeoutPhase <;> rfl

@[simp] theorem wipeoutKinematics_z (sinq : ℚ → ℚ) (dt : ℚ) (p : PlayerS) :
    (wipeoutKinematics sinq dt p).z = p.z := by
  unfold wipeoutKinematics; cases p.wipeoutPhase <;> rfl

@[simp] theorem wipeoutKinematics_maxSpeed (sinq : ℚ → ℚ) (dt : ℚ) (p : PlayerS) :
    (wipeoutKinematics sinq dt p).maxSpeed = p.maxSpeed := by
  unfold wipeoutKinematics; cases p.wipeoutPhase <;> rfl

theorem wipeoutKinematics_speed_nonneg (sinq : ℚ → ℚ) (dt : ℚ) (p : PlayerS)
    (h : 0 ≤ p.speed) : 0 ≤ (wipeoutKinematics sinq dt p).speed := by
  unfold wipeoutKinematics
  dsimp only
  cases hph : p.wipeoutPhase
  · exact h
  · exact le_max_left 0 _
  · exact le_max_left 0 _
  · exact le_max_left 0 _
  · exact le_refl 0

theorem wipeoutKinematics_speed_le (sinq : ℚ → ℚ) (dt : ℚ) (p : PlayerS)
    (hdt : 0 ≤ dt) (hbr : 0 ≤ p.braking) (h : 0 ≤ p.speed) :
    (wipeoutKinematics sinq dt p).speed ≤ p.speed := by
  unfold wipeoutKinematics
  dsimp only
  cases hph : p.wipeoutPhase
  · exact le_refl _
  · exact max_le h (by nlinarith)
  · exact max_le h (by nlinarith)
  · exact max_le h (by nlinarith)
  · exact h

@[simp] theorem wipeoutLeanStage_z (sinq : ℚ → ℚ) (p : PlayerS) :
    (wipeoutLeanStage sinq p).z = p.z := by
  unfold wipeoutLeanStage; split <;> rfl

@[simp] theorem wipeoutLeanStage_speed (sinq : ℚ → ℚ) (p : PlayerS) :
    (wipeoutLeanStage sinq p).speed = p.speed := by
  unfold wipeoutLeanStage; split <;> rfl

@[simp] theorem wipeoutLeanStage_maxSpeed (sinq : ℚ → ℚ) (p : PlayerS) :
    (wipeoutLeanStage sinq p).maxSpeed = p.maxSpeed := by
  unfold wipeoutLeanStage; split <;> rfl

@[simp] theorem wipeoutRecover_z (p : PlayerS) : (wipeoutRecover p).z = p.z := rfl

@[simp] theorem wipeoutRecover_speed (p : PlayerS) : (wipeoutRecover p).speed = 0 := rfl

@[simp] theorem wipeoutRecover_maxSpeed (p : PlayerS) :
    (wipeoutRecover p).maxSpeed = p.maxSpeed := rfl

@[simp] theorem wipeoutAdvancePhase_braking (p : PlayerS) :
    (wipeoutAdvancePhase p).braking = p.braking := by
  unfold wipeoutAdvancePhase; cases p.wipeoutPhase <;> rfl

@[simp] theorem wipeoutKinematics_braking (sinq : ℚ → ℚ) (dt : ℚ) (p : PlayerS) :
    (wipeoutKinematics sinq dt p).braking = p.braking := by
  unfold wipeoutKinematics; dsimp only; cases hph : p.wipeoutPhase <;> rfl

-- updateWipeout: shape of the z and speed evolution.

theorem updateWipeout_z_speed (sinq : ℚ → ℚ) (dt : ℚ) (p : PlayerS) :
    ∃ s : ℚ, (0 ≤ p.speed → 0 ≤ s) ∧
      ((0 ≤ dt ∧ 0 ≤ p.braking ∧ 0 ≤ p.speed) → s ≤ p.speed) ∧
      (updateWipeout sinq dt p).z = p.z + s * 200 * dt ∧
      ((updateWipeout sinq dt p).speed = s ∨ (updateWipeout sinq dt p).speed = 0) ∧
      (updateWipeout sinq dt p).maxSpeed = p.maxSpeed := by
  unfold updateWipeout
  dsimp only
  set p1 : PlayerS := { p with wipeoutTimer := p.wipeoutTimer - dt,
                               wipeoutPhaseTimer := p.wipeoutPhaseTimer - dt,
                               animFrame := AnimFrame.wipeout } with hp1
  set p2 : PlayerS := if p1.wipeoutPhaseTimer ≤ 0 then wipeoutAdvancePhase p1 else p1 with hp2
  have h2z : p2.z = p.z := by rw [hp2]; split <;> simp [hp1]
  have h2s : p2.speed = p.speed := by rw [hp2]; split <;> simp [hp1]
  have h2m : p2.maxSpeed = p.maxSpeed := by rw [hp2]; split <;> simp [hp1]
  have h2b : p2.braking = p.braking := by rw [hp2]; split <;> simp [hp1]
  refine ⟨(wipeoutKinematics sinq dt p2).speed, ?_, ?_, ?_, ?_, ?_⟩
  · intro h
    exact wipeoutKinematics_speed_nonneg sinq dt p2 (h2s ▸ h)
  · rintro ⟨hdt, hbr, hs⟩
    have := wipeoutKinematics_speed_le sinq dt p2 hdt (h2b ▸ hbr) (h2s ▸ hs)
    rw [h2s] at this
    exact this
  · split <;> simp [h2z]
  · split
    · right; simp
    · left; simp
  · split <;> simp [h2m]

-- Rival stage preservation lemmas.

@[simp] theorem rivalSpeedStage_z (sinq : ℚ → ℚ) (dz dt : ℚ) (r : RivalS) :
    (rivalSpeedStage sinq dz dt r).z = r.z := rfl

@[simp] theorem rivalSpeedStage_x (sinq : ℚ → ℚ) (dz dt : ℚ) (r : RivalS) :
    (rivalSpeedStage sinq dz dt r).x = r.x := rfl

@[simp] theorem rivalSpeedStage_speed (sinq : ℚ → ℚ) (dz dt : ℚ) (r : RivalS) :
    (rivalSpeedStage sinq dz dt r).speed
      = max 0 (r.speed + (rivalTargetSpeed sinq dz r - r.speed) * 2 * dt) := rfl

@[simp] theorem rivalLaneStage_z (playerX dz dt : ℚ) (rnd : RivalRand) (r : RivalS) :
    (rivalLaneStage playerX dz dt rnd r).z = r.z := by
  unfold rivalLaneStage; dsimp only; split <;> rfl

@[simp] theorem rivalLaneStage_speed (playerX dz dt : ℚ) (rnd : RivalRand) (r : RivalS) :
    (rivalLaneStage playerX dz dt rnd r).speed = r.speed := by
  unfold rivalLaneStage; dsimp only; split <;> rfl

@[simp] theorem rivalSteerStage_z (curve dt : ℚ) (r : RivalS) :
    (rivalSteerStage curve dt r).z = r.z := rfl

@[simp] theorem rivalSteerStage_speed (curve dt : ℚ) (r : RivalS) :
    (rivalSteerStage curve dt r).speed = r.speed := rfl

@[simp] theorem rivalMoveStage_z (totalZ dt : ℚ) (r : RivalS) :
    (rivalMoveStage totalZ dt r).z = jsMod (r.z + r.speed * 200 * dt) totalZ := rfl

@[simp] theorem rivalMoveStage_speed (totalZ dt : ℚ) (r : RivalS) :
    (rivalMoveStage totalZ dt r).speed = r.speed := rfl

@[simp] theorem rivalCrashStage_z (curve : ℚ) (rnd : RivalRand) (r : RivalS) :
    (rivalCrashStage curve rnd r).z = r.z := by
  unfold rivalCrashStage; split <;> rfl

theorem rivalCrashStage_speed_nonneg (curve : ℚ) (rnd : RivalRand) (r : RivalS)
    (h : 0 ≤ r.speed) : 0 ≤ (rivalCrashStage curve rnd r).speed := by
  unfold rivalCrashStage; split
  · exact mul_nonneg h (by norm_num)
  · exact h

@[simp] theorem rivalCollisionStage_z (player : PlayerS) (totalZ : ℚ) (r : RivalS) :
    (rivalCollisionStage player totalZ r).1.z = r.z := by
  unfold rivalCollisionStage
  split
  · split
    · dsimp only; split <;> rfl
    · rfl
  · rfl

theorem rivalCollisionStage_speed_nonneg (player : PlayerS) (totalZ : ℚ) (r : RivalS)
    (h : 0 ≤ r.speed) : 0 ≤ (rivalCollisionStage player totalZ r).1.speed := by
  unfold rivalCollisionStage
  split
  · split
    · dsimp only
      split
      · exact mul_nonneg h (by norm_num)
      · exact mul_nonneg h (by norm_num)
    · exact h
  · exact h

-- The hit-flash decay pre-step preserves everything except hitFlash.

theorem rivalFlashPre_fields (dt : ℚ) (r : RivalS) :
    ((if 0 < r.hitFlash then { r with hitFlash := max 0 (r.hitFlash - dt * 8) } else r) : RivalS).z = r.z ∧
    ((if 0 < r.hitFlash then { r with hitFlash := max 0 (r.hitFlash - dt * 8) } else r) : RivalS).speed = r.speed ∧
    ((if 0 < r.hitFlash then { r with hitFlash := max 0 (r.hitFlash - dt * 8) } else r) : RivalS).baseSpeed = r.baseSpeed ∧
    ((if 0 < r.hitFlash then { r with hitFlash := max 0 (r.hitFlash - dt * 8) } else r) : RivalS).isWipedOut = r.isWipedOut := by
  split <;> exact ⟨rfl, rfl, rfl, rfl⟩

/-- rivalWipeoutStep: wrapped position with a nonnegative speed. -/
theorem rivalWipeoutStep_z_bounds (totalZ dt : ℚ) (r : RivalS)
    (hdt : 0 ≤ dt) (hz : 0 ≤ r.z) (hb : 0 ≤ r.baseSpeed) (ht : 0 < totalZ) :
    0 ≤ (rivalWipeoutStep totalZ dt r).z ∧ (rivalWipeoutStep totalZ dt r).z < totalZ := by
  unfold rivalWipeoutStep
  dsimp only
  set r1 : RivalS := { r with wipeoutTimer := r.wipeoutTimer - dt,
                              speed := max 0 (r.speed - r.baseSpeed * 2 * dt) } with hr1
  set r2 : RivalS := if r1.wipeoutTimer ≤ 0 then
      { r1 with isWipedOut := false, health := r1.maxHealth, speed := r1.baseSpeed * (1/2) }
    else r1 with hr2
  have h2z : r2.z = r.z := by rw [hr2]; split <;> rfl
  have h2s : 0 ≤ r2.speed := by
    rw [hr2]; split
    · exact mul_nonneg hb (by norm_num)
    · exact le_max_left 0 _
  have hnum : 0 ≤ r2.z + r2.speed * 200 * dt := by
    have hm := mul_nonneg (mul_nonneg h2s (by norm_num : (0:ℚ) ≤ 200)) hdt
    rw [h2z]
    linarith
  exact jsMod_nonneg_lt _ _ hnum ht

theorem rivalWipeoutStep_speed_nonneg (totalZ dt : ℚ) (r : RivalS)
    (hb : 0 ≤ r.baseSpeed) : 0 ≤ (rivalWipeoutStep totalZ dt r).speed := by
  unfold rivalWipeoutStep
  dsimp only
  split
  · exact mul_nonneg hb (by norm_num)
  · exact le_max_left 0 _

/-- After one rival update the wrapped position lies in [0, totalZ). -/
theorem updateRival_z_bounds (sinq : ℚ → ℚ) (player : PlayerS) (road : List ℚ)
    (dt : ℚ) (rnd : RivalRand) (r : RivalS)
    (hdt : 0 ≤ dt) (hz : 0 ≤ r.z) (hb : 0 ≤ r.baseSpeed) (hlen : 0 < road.length) :
    0 ≤ (updateRival sinq player road dt rnd r).1.z ∧
    (updateRival sinq player road dt rnd r).1.z < (road.length : ℚ) * 200 := by
  have ht : (0:ℚ) < (road.length : ℚ) * 200 := by positivity
  unfold updateRival
  dsimp only
  set r0 : RivalS := if 0 < r.hitFlash then { r with hitFlash := max 0 (r.hitFlash - dt * 8) } else r
    with hr0
  have h0 := rivalFlashPre_fields dt r
  rw [← hr0] at h0
  split
  · exact rivalWipeoutStep_z_bounds _ dt r0 hdt (h0.1 ▸ hz) (h0.2.2.1 ▸ hb) ht
  · simp only [rivalCollisionStage_z, rivalCrashStage_z, rivalMoveStage_z,
      rivalSteerStage_z, rivalSteerStage_speed, rivalLaneStage_z, rivalLaneStage_speed,
      rivalSpeedStage_z, rivalSpeedStage_speed]
    apply jsMod_nonneg_lt _ _ ?_ ht
    have hm := mul_nonneg (mul_nonneg
      (le_max_left 0 (r0.speed + (rivalTargetSpeed sinq
        (wrappedDelta r0.z player.z ((road.length : ℚ) * 200)) r0 - r0.speed) * 2 * dt))
      (by norm_num : (0:ℚ) ≤ 200)) hdt
    have hz0 : 0 ≤ r0.z := h0.1 ▸ hz
    linarith

/-- After one rival update the speed is nonnegative (never clamped above). -/
theorem updateRival_speed_nonneg (sinq : ℚ → ℚ) (player : PlayerS) (road : List ℚ)
    (dt : ℚ) (rnd : RivalRand) (r : RivalS) (hb : 0 ≤ r.baseSpeed) :
    0 ≤ (updateRival sinq player road dt rnd r).1.speed := by
  unfold updateRival
  dsimp only
  set r0 : RivalS := if 0 < r.hitFlash then { r with hitFlash := max 0 (r.hitFlash - dt * 8) } else r
    with hr0
  have h0 := rivalFlashPre_fields dt r
  rw [← hr0] at h0
  split
  · exact rivalWipeoutStep_speed_nonneg _ dt r0 (h0.2.2.1 ▸ hb)
  · apply rivalCollisionStage_speed_nonneg
    apply rivalCrashStage_speed_nonneg
    rw [rivalMoveStage_speed, rivalSteerStage_speed, rivalLaneStage_speed,
      rivalSpeedStage_speed]
    exact le_max_left 0 _

-- Police stage preservation lemmas.

theorem policeSpawnStage_cases (player : PlayerS) (totalZ dt : ℚ) (s : PoliceState) :
    (policeSpawnStage player totalZ dt s).cop = s.cop ∨
    (policeSpawnStage player totalZ dt s).cop = spawnCop player totalZ s.cop := by
  unfold policeSpawnStage
  split
  · split
    · dsimp only; split
      · right; rfl
      · left; rfl
    · right; rfl
  · left; rfl

theorem policeSpawnStage_active (player : PlayerS) (totalZ dt : ℚ) (s : PoliceState)
    (h : s.cop.active = true) : policeSpawnStage player totalZ dt s = s := by
  unfold policeSpawnStage
  rw [if_neg]
  simp [h]

@[simp] theorem policeBustStage_cop (player : PlayerS) (totalZ dt : ℚ) (s : PoliceState) :
    (policeBustStage player totalZ dt s).cop = s.cop := by
  unfold policeBustStage
  split
  · dsimp only; split <;> rfl
  · rfl

@[simp] theorem policeChase_z (player : PlayerS) (road : List ℚ) (dt : ℚ) (cop : PoliceCop) :
    (policeChase player road dt cop).z
      = jsMod ((policeChase player road dt cop).speed * 200 * dt + cop.z)
          ((road.length : ℚ) * 200) := by
  unfold policeChase
  dsimp only
  rw [add_comm]

@[simp] theorem policeChase_speed (player : PlayerS) (road : List ℚ) (dt : ℚ) (cop : PoliceCop) :
    (policeChase player road dt cop).speed
      = max 0 (cop.speed + (player.maxSpeed * (11/10) - cop.speed) * 2 * dt) := rfl

theorem policeWipeoutStage_z_bounds (totalZ dt : ℚ) (s : PoliceState)
    (hdt : 0 ≤ dt) (hz : 0 ≤ s.cop.z) (ht : 0 < totalZ) :
    0 ≤ (policeWipeoutStage totalZ dt s).cop.z ∧
    (policeWipeoutStage totalZ dt s).cop.z < totalZ := by
  unfold policeWipeoutStage
  dsimp only
  have hs : (0:ℚ) ≤ max 0 (s.cop.speed - 200 * dt) := le_max_left 0 _
  have hnum : 0 ≤ s.cop.z + max 0 (s.cop.speed - 200 * dt) * 200 * dt := by
    have hm := mul_nonneg (mul_nonneg hs (by norm_num : (0:ℚ) ≤ 200)) hdt
    linarith
  have hbd := jsMod_nonneg_lt _ _ hnum ht
  split <;> exact hbd

theorem policeWipeoutStage_speed (totalZ dt : ℚ) (s : PoliceState) :
    0 ≤ (policeWipeoutStage totalZ dt s).cop.speed := by
  unfold policeWipeoutStage
  dsimp only
  split <;> exact le_max_left 0 _

/-- spawnCop position bounds: spawning at least 3000 units of track behind
the player stays wrapped when the track is long enough. -/
theorem spawnCop_z_bounds (player : PlayerS) (totalZ : ℚ) (cop : PoliceCop)
    (hp : 0 ≤ player.z) (ht : 3000 ≤ totalZ) :
    0 ≤ (spawnCop player totalZ cop).z ∧ (spawnCop player totalZ cop).z < totalZ := by
  unfold spawnCop
  dsimp only
  exact jsMod_nonneg_lt _ _ (by linarith) (by linarith)

/-- Generic clamp helper: adding a floored-at-zero speed term keeps the
position at least as large. -/
theorem le_add_clamped (z m d : ℚ) (hd : 0 ≤ d) : z ≤ z + max 0 m * 200 * d := by
  have := mul_nonneg (mul_nonneg (le_max_left 0 m) (by norm_num : (0:ℚ) ≤ 200)) hd
  linarith

/-- updatePolice: the cop position stays in [0, totalZ) whenever it moves,
and is untouched otherwise. -/
theorem updatePolice_cop_z (player : PlayerS) (road : List ℚ) (dt : ℚ) (s : PoliceState)
    (hdt : 0 ≤ dt) (hz : 0 ≤ s.cop.z) (hp : 0 ≤ player.z) (hlen : 15 ≤ road.length) :
    0 ≤ (updatePolice player road dt s).cop.z ∧
    ((updatePolice player road dt s).cop.z < (road.length : ℚ) * 200 ∨
     (updatePolice player road dt s).cop.z = s.cop.z) := by
  have hlen0 : (0:ℚ) < (road.length : ℚ) := by
    have h15 : (15:ℚ) ≤ (road.length : ℚ) := by exact_mod_cast hlen
    linarith
  have ht : (0:ℚ) < (road.length : ℚ) * 200 := by positivity
  have h3000 : (3000:ℚ) ≤ (road.length : ℚ) * 200 := by
    have h15 : (15:ℚ) ≤ (road.length : ℚ) := by exact_mod_cast hlen
    nlinarith
  unfold updatePolice
  dsimp only
  split
  · exact ⟨hz, Or.inr rfl⟩
  · set s1 : PoliceState := { s with
      sirenPhase := s.sirenPhase + dt,
      warningTimer := max 0 (s.warningTimer - dt) } with hs1
    set s2 : PoliceState := policeSpawnStage player ((road.length : ℚ) * 200) dt s1 with hs2
    have hzs : 0 ≤ s2.cop.z ∧ (s2.cop.z < (road.length : ℚ) * 200 ∨ s2.cop.z = s.cop.z) := by
      rcases policeSpawnStage_cases player ((road.length : ℚ) * 200) dt s1 with hc | hc
      · rw [hs2, hc]; exact ⟨hz, Or.inr rfl⟩
      · rw [hs2, hc]
        have hsp := spawnCop_z_bounds player ((road.length : ℚ) * 200) s1.cop hp h3000
        exact ⟨hsp.1, Or.inl hsp.2⟩
    split
    · exact hzs
    · split
      · have := policeWipeoutStage_z_bounds ((road.length : ℚ) * 200) dt s2 hdt hzs.1 ht
        exact ⟨this.1, Or.inl this.2⟩
      · rw [policeBustStage_cop]
        dsimp only
        rw [policeChase_z]
        have hs0 : (0:ℚ) ≤ (policeChase player road dt s2.cop).speed := by
          rw [policeChase_speed]; exact le_max_left 0 _
        have hm := mul_nonneg (mul_nonneg hs0 (by norm_num : (0:ℚ) ≤ 200)) hdt
        have hnum : 0 ≤ (policeChase player road dt s2.cop).speed * 200 * dt + s2.cop.z := by
          have := hzs.1; linarith
        have hb := jsMod_nonneg_lt _ _ hnum ht
        exact ⟨hb.1, Or.inl hb.2⟩

/-- updatePolice: the cop speed stays nonnegative. -/
theorem updatePolice_cop_speed (player : PlayerS) (road : List ℚ) (dt : ℚ) (s : PoliceState)
    (hs : 0 ≤ s.cop.speed) (hps : 0 ≤ player.speed) :
    0 ≤ (updatePolice player road dt s).cop.speed := by
  unfold updatePolice
  dsimp only
  split
  · exact hs
  · set s1 : PoliceState := { s with
      sirenPhase := s.sirenPhase + dt,
      warningTimer := max 0 (s.warningTimer - dt) } with hs1
    set s2 : PoliceState := policeSpawnStage player ((road.length : ℚ) * 200) dt s1 with hs2
    have hss : 0 ≤ s2.cop.speed := by
      rcases policeSpawnStage_cases player ((road.length : ℚ) * 200) dt s1 with hc | hc
      · rw [hs2, hc]; exact hs
      · rw [hs2, hc]
        exact mul_nonneg hps (by norm_num)
    split
    · exact hss
    · split
      · exact policeWipeoutStage_speed _ dt _
      · rw [policeBustStage_cop]
        dsimp only
        rw [policeChase_speed]
        exact le_max_left 0 _

/-- updatePlayer never wraps and never rewinds the position. -/
theorem updatePlayerCore_z_mono (sinq : ℚ → ℚ) (rud : ℚ) (inp : Inputs) (road : List ℚ)
    (nearby : List DraftRival) (dt : ℚ) (p : PlayerS)
    (hdt : 0 ≤ dt) (hs : 0 ≤ p.speed) :
    p.z ≤ (updatePlayerCore sinq rud inp road nearby dt p).z := by
  unfold updatePlayerCore
  dsimp only
  split
  · obtain ⟨s, hs0, _, hzeq, _, _⟩ := updateWipeout_z_speed sinq dt
      { p with prevSpeed := p.speed }
    rw [hzeq]
    have h0 : (0:ℚ) ≤ s := hs0 hs
    have hm := mul_nonneg (mul_nonneg h0 (by norm_num : (0:ℚ) ≤ 200)) hdt
    show p.z ≤ p.z + s * 200 * dt
    linarith
  · simp only [wipeCheckStage_z, moveStage_z, animStage_z, animStage_speed,
      wheelieStage_z, wheelieStage_speed, leanStage_z, leanStage_speed,
      centrifugalStage_z, centrifugalStage_speed, steerStage_z, steerStage_speed,
      clampStage_z, clampStage_speed, offroadStage_z, draftStage_z, accelStage_z]
    exact le_add_clamped _ _ _ hdt

/-- updatePlayer: the speed ends clamped to [0, maxSpeed] on the riding
path and only decays (or zeroes) during a wipeout. -/
theorem updatePlayerCore_speed_bounds (sinq : ℚ → ℚ) (rud : ℚ) (inp : Inputs)
    (road : List ℚ) (nearby : List DraftRival) (dt : ℚ) (p : PlayerS)
    (hdt : 0 ≤ dt) (hbr : 0 ≤ p.braking) (h0 : 0 ≤ p.speed) (h1 : p.speed ≤ p.maxSpeed) :
    0 ≤ (updatePlayerCore sinq rud inp road nearby dt p).speed ∧
    (updatePlayerCore sinq rud inp road nearby dt p).speed
      ≤ (updatePlayerCore sinq rud inp road nearby dt p).maxSpeed := by
  unfold updatePlayerCore
  dsimp only
  split
  · obtain ⟨s, hs0, hsle, _, hsor, hmax⟩ := updateWipeout_z_speed sinq dt
      { p with prevSpeed := p.speed }
    have hmax2 : (updateWipeout sinq dt { p with prevSpeed := p.speed }).maxSpeed
        = p.maxSpeed := hmax
    have hle : s ≤ p.speed := hsle ⟨hdt, hbr, h0⟩
    rcases hsor with h | h <;> rw [h, hmax2]
    · exact ⟨hs0 h0, le_trans hle h1⟩
    · exact ⟨le_refl 0, le_trans h0 h1⟩
  · simp only [wipeCheckStage_speed, wipeCheckStage_maxSpeed, moveStage_speed,
      moveStage_maxSpeed, animStage_speed, animStage_maxSpeed, wheelieStage_speed,
      wheelieStage_maxSpeed, leanStage_speed, leanStage_maxSpeed, centrifugalStage_speed,
      centrifugalStage_maxSpeed, steerStage_speed, steerStage_maxSpeed, clampStage_speed,
      clampStage_maxSpeed, offroadStage_maxSpeed, draftStage_maxSpeed, accelStage_maxSpeed]
    constructor
    · exact le_max_left 0 _
    · exact max_le (le_trans h0 h1) (min_le_right _ _)

@[simp] theorem getD_replicate (n i : ℕ) (a : ℚ) :
    (List.replicate n a).getD i a = a := by
  induction n generalizing i with
  | zero => simp [List.getD]
  | succ m ih =>
    cases i with
    | zero => simp [List.replicate, List.getD]
    | succ j => simpa [List.replicate, List.getD] using ih j

-- ---------------------------------------------------------------------------
-- C5: position wrapping
-- ---------------------------------------------------------------------------

/-- C5 counterexample: the claim says every vehicle position is taken
modulo the track length after each forward-motion update, but the player
position is never wrapped: starting just before the end of a 10-segment
track (length 2000) one coasting tick carries the player past the track
length, and the result differs from its own value modulo the track
length. -/
theorem player_position_not_wrapped :
    0 ≤ wrapTestPlayer.z ∧ wrapTestPlayer.z < (road10.length : ℚ) * 200 ∧
    (road10.length : ℚ) * 200
      ≤ (updatePlayerCore zeroSin 0 idleInputs road10 [] (1/60) wrapTestPlayer).z ∧
    (updatePlayerCore zeroSin 0 idleInputs road10 [] (1/60) wrapTestPlayer).z
      ≠ jsMod (updatePlayerCore zeroSin 0 idleInputs road10 [] (1/60) wrapTestPlayer).z
          ((road10.length : ℚ) * 200) := by
  norm_num [updatePlayerCore, accelStage, draftStage, offroadStage, clampStage,
    steerStage, steeringOf, centrifugalStage, leanStage, wheelieStage, animStage,
    moveStage, wipeCheckStage, gearDipFor, playerCentrifugalDX, segIdxOf, jsMod,
    wrapTestPlayer, samplePlayer, road10, idleInputs, zeroSin, OFFROAD_SPEED_CAP,
    MAX_SPEED, WIPEOUT_DURATION, PHASE_LAUNCH, min_def, max_def, abs_lt, lt_abs,
    Int.floor_eq_iff]

/-- C5 amended: rival and cop positions are wrapped modulo the total
track length after each forward-motion update and stay nonnegative (the
cop position is untouched when the unit does not move); the player
position is never wrapped — it is nondecreasing and stays nonnegative. -/
theorem position_wrapping_amended :
    (∀ (sinq : ℚ → ℚ) (rud : ℚ) (inp : Inputs) (road : List ℚ) (nearby : List DraftRival)
        (dt : ℚ) (p : PlayerS), 0 ≤ dt → 0 ≤ p.speed → 0 ≤ p.z →
        0 ≤ (updatePlayerCore sinq rud inp road nearby dt p).z ∧
        p.z ≤ (updatePlayerCore sinq rud inp road nearby dt p).z) ∧
    (∀ (sinq : ℚ → ℚ) (player : PlayerS) (road : List ℚ) (dt : ℚ) (rnd : RivalRand)
        (r : RivalS), 0 ≤ dt → 0 ≤ r.z → 0 ≤ r.baseSpeed → 0 < road.length →
        0 ≤ (updateRival sinq player road dt rnd r).1.z ∧
        (updateRival sinq player road dt rnd r).1.z < (road.length : ℚ) * 200) ∧
    (∀ (player : PlayerS) (road : List ℚ) (dt : ℚ) (s : PoliceState),
        0 ≤ dt → 0 ≤ s.cop.z → 0 ≤ player.z → 15 ≤ road.length →
        0 ≤ (updatePolice player road dt s).cop.z ∧
        ((updatePolice player road dt s).cop.z < (road.length : ℚ) * 200 ∨
         (updatePolice player road dt s).cop.z = s.cop.z)) := by
  refine ⟨?_, ?_, ?_⟩
  · intro sinq rud inp road nearby dt p hdt hs hz
    have hm := updatePlayerCore_z_mono sinq rud inp road nearby dt p hdt hs
    exact ⟨le_trans hz hm, hm⟩
  · intro sinq player road dt rnd r hdt hz hb hlen
    exact updateRival_z_bounds sinq player road dt rnd r hdt hz hb hlen
  · intro player road dt s hdt hz hp hlen
    exact updatePolice_cop_z player road dt s hdt hz hp hlen

/-- Witness for the amended C5 at concrete states. -/
theorem position_wrapping_amended_witness :
    ((0:ℚ) ≤ 1/60 ∧ 0 ≤ samplePlayer.speed ∧ 0 ≤ samplePlayer.z ∧
     0 ≤ sampleRival.z ∧ 0 ≤ sampleRival.baseSpeed ∧ 0 < road10.length ∧
     0 ≤ samplePolice.cop.z ∧ 15 ≤ road100.length) ∧
    (0 ≤ (updatePlayerCore zeroSin 0 idleInputs road10 [] (1/60) samplePlayer).z ∧
     samplePlayer.z ≤ (updatePlayerCore zeroSin 0 idleInputs road10 [] (1/60) samplePlayer).z) ∧
    (0 ≤ (updateRival zeroSin samplePlayer road10 (1/60) sampleRivalRand sampleRival).1.z ∧
     (updateRival zeroSin samplePlayer road10 (1/60) sampleRivalRand sampleRival).1.z
       < (road10.length : ℚ) * 200) ∧
    (0 ≤ (updatePolice samplePlayer road100 (1/60) samplePolice).cop.z ∧
     ((updatePolice samplePlayer road100 (1/60) samplePolice).cop.z
        < (road100.length : ℚ) * 200 ∨
      (updatePolice samplePlayer road100 (1/60) samplePolice).cop.z
        = samplePolice.cop.z)) := by
  refine ⟨⟨by norm_num, by norm_num [samplePlayer], by norm_num [samplePlayer],
    by norm_num [sampleRival], by norm_num [sampleRival], by norm_num [road10],
    by norm_num [samplePolice], by norm_num [road100]⟩, ?_, ?_, ?_⟩
  · exact position_wrapping_amended.1 zeroSin 0 idleInputs road10 [] (1/60) samplePlayer
      (by norm_num) (by norm_num [samplePlayer]) (by norm_num [samplePlayer])
  · exact position_wrapping_amended.2.1 zeroSin samplePlayer road10 (1/60) sampleRivalRand
      sampleRival (by norm_num) (by norm_num [sampleRival]) (by norm_num [sampleRival])
      (by norm_num [road10])
  · exact position_wrapping_amended.2.2 samplePlayer road100 (1/60) samplePolice
      (by norm_num) (by norm_num [samplePolice]) (by norm_num [samplePlayer])
      (by norm_num [road100])

-- ---------------------------------------------------------------------------
-- C6: centrifugal formulas
-- ---------------------------------------------------------------------------

/-- C6 counterexample: at speed 300, curvature 1 and dt 1, the player
centrifugal displacement (coefficient 0.6) differs from the rival and cop
displacement (coefficient 0.3): the coefficient is not shared across all
three vehicles. -/
theorem centrifugal_not_shared_coefficient :
    playerCentrifugalDX 300 300 1 1 = 3/5 ∧ rivalCentrifugalDX 300 1 1 = 3/10 ∧
    copCentrifugalDX 300 1 1 = 3/10 ∧
    playerCentrifugalDX 300 300 1 1 ≠ rivalCentrifugalDX 300 1 1 := by
  norm_num [playerCentrifugalDX, rivalCentrifugalDX, copCentrifugalDX]

/-- C6 amended: rivals and the cop share the identical centrifugal
formula — coefficient 0.3 with the speed ratio normalised by the constant
300 — while the player uses the same formula shape with coefficient 0.6
and the speed ratio normalised by its own maxSpeed stat; the player term
is exactly twice the rival term when the max speeds agree at 300, and the
player stage subtracts its term from the lateral offset. -/
theorem centrifugal_formula_relations :
    (∀ s c d : ℚ, rivalCentrifugalDX s c d = copCentrifugalDX s c d) ∧
    (∀ s c d : ℚ, rivalCentrifugalDX s c d = specSharedCentrifugal (3/10) s 300 c d) ∧
    (∀ s m c d : ℚ, playerCentrifugalDX s m c d = specSharedCentrifugal (3/5) s m c d) ∧
    (∀ s c d : ℚ, playerCentrifugalDX s 300 c d = 2 * rivalCentrifugalDX s c d) ∧
    (∀ (road : List ℚ) (dt : ℚ) (p : PlayerS),
       (centrifugalStage road dt p).x
         = p.x - playerCentrifugalDX p.speed p.maxSpeed
             (road.getD (segIdxOf p.z road.length) 0) dt) := by
  refine ⟨fun s c d => rfl, fun s c d => rfl, fun s m c d => rfl, ?_, fun road dt p => rfl⟩
  intro s c d
  unfold playerCentrifugalDX rivalCentrifugalDX
  ring

-- ---------------------------------------------------------------------------
-- C8: speed bounds
-- ---------------------------------------------------------------------------

/-- C8 counterexample: a rival at the top of the documented 0-300 speed
scale exceeds 300 after one tick — rubber banding boosts the target speed
past the scale and no upper clamp exists for rivals. -/
theorem rival_speed_exceeds_scale :
    0 ≤ fastRival.speed ∧ fastRival.speed ≤ 300 ∧
    (updateRival zeroSin farPlayer road100 (1/60) sampleRivalRand fastRival).1.speed
      = 4511/15 ∧
    300 < (updateRival zeroSin farPlayer road100 (1/60) sampleRivalRand fastRival).1.speed := by
  norm_num [updateRival, rivalWipeoutStep, rivalSpeedStage, rivalTargetSpeed,
    rivalLaneStage, rivalSteerStage, rivalMoveStage, rivalCrashStage,
    rivalCollisionStage, pickTargetX, rivalCentrifugalDX, wrappedDelta, segIdxOf,
    jsMod, fastRival, sampleRival, farPlayer, samplePlayer, road100,
    sampleRivalRand, zeroSin, min_def, max_def, abs_lt, lt_abs, Int.floor_eq_iff]

/-- C8 amended: the player speed is clamped to [0, maxSpeed] every riding
tick and only decays during wipeout; rival and cop speeds are clamped
below at zero but have no upper clamp. -/
theorem speed_bounds_amended :
    (∀ (sinq : ℚ → ℚ) (rud : ℚ) (inp : Inputs) (road : List ℚ)
        (nearby : List DraftRival) (dt : ℚ) (p : PlayerS),
        0 ≤ dt → 0 ≤ p.braking → 0 ≤ p.speed → p.speed ≤ p.maxSpeed →
        0 ≤ (updatePlayerCore sinq rud inp road nearby dt p).speed ∧
        (updatePlayerCore sinq rud inp road nearby dt p).speed
          ≤ (updatePlayerCore sinq rud inp road nearby dt p).maxSpeed) ∧
    (∀ (sinq : ℚ → ℚ) (player : PlayerS) (road : List ℚ) (dt : ℚ) (rnd : RivalRand)
        (r : RivalS), 0 ≤ r.baseSpeed →
        0 ≤ (updateRival sinq player road dt rnd r).1.speed) ∧
    (∀ (player : PlayerS) (road : List ℚ) (dt : ℚ) (s : PoliceState),
        0 ≤ s.cop.speed → 0 ≤ player.speed →
        0 ≤ (updatePolice player road dt s).cop.speed) := by
  refine ⟨?_, ?_, ?_⟩
  · intro sinq rud inp road nearby dt p hdt hbr h0 h1
    exact updatePlayerCore_speed_bounds sinq rud inp road nearby dt p hdt hbr h0 h1
  · intro sinq player road dt rnd r hb
    exact updateRival_speed_nonneg sinq player road dt rnd r hb
  · intro player road dt s hs hps
    exact updatePolice_cop_speed player road dt s hs hps

/-- Witness for the amended C8 at concrete states. -/
theorem speed_bounds_amended_witness :
    ((0:ℚ) ≤ 1/60 ∧ 0 ≤ samplePlayer.braking ∧ 0 ≤ samplePlayer.speed ∧
     samplePlayer.speed ≤ samplePlayer.maxSpeed ∧ 0 ≤ sampleRival.baseSpeed ∧
     0 ≤ samplePolice.cop.speed) ∧
    (0 ≤ (updatePlayerCore zeroSin 0 idleInputs road10 [] (1/60) samplePlayer).speed ∧
     (updatePlayerCore zeroSin 0 idleInputs road10 [] (1/60) samplePlayer).speed
       ≤ (updatePlayerCore zeroSin 0 idleInputs road10 [] (1/60) samplePlayer).maxSpeed) ∧
    0 ≤ (updateRival zeroSin samplePlayer road10 (1/60) sampleRivalRand sampleRival).1.speed ∧
    0 ≤ (updatePolice samplePlayer road100 (1/60) samplePolice).cop.speed := by
  refine ⟨⟨by norm_num, by norm_num [samplePlayer], by norm_num [samplePlayer],
    by norm_num [samplePlayer], by norm_num [sampleRival],
    by norm_num [samplePolice]⟩, ?_, ?_, ?_⟩
  · exact speed_bounds_amended.1 zeroSin 0 idleInputs road10 [] (1/60) samplePlayer
      (by norm_num) (by norm_num [samplePlayer]) (by norm_num [samplePlayer])
      (by norm_num [samplePlayer])
  · exact speed_bounds_amended.2.1 zeroSin samplePlayer road10 (1/60) sampleRivalRand
      sampleRival (by norm_num [sampleRival])
  · exact speed_bounds_amended.2.2 samplePlayer road100 (1/60) samplePolice
      (by norm_num [samplePolice]) (by norm_num [samplePlayer])

-- ---------------------------------------------------------------------------
-- C9: off-road jitter determinism
-- ---------------------------------------------------------------------------

/-- C9 counterexample: two updatePlayer runs from the identical off-track
state with identical inputs and identical sine oracle but different
Math.random draws produce different lateral offsets, so the off-track
jitter is not a function of position alone. -/
theorem offtrack_jitter_not_deterministic :
    (updatePlayerCore zeroSin 0 idleInputs road10 [] (1/60)
       { samplePlayer with x := 3/2 }).x
      ≠ (updatePlayerCore zeroSin (1/2) idleInputs road10 [] (1/60)
       { samplePlayer with x := 3/2 }).x := by
  norm_num [updatePlayerCore, accelStage, draftStage, offroadStage, clampStage,
    steerStage, steeringOf, centrifugalStage, leanStage, wheelieStage, animStage,
    moveStage, wipeCheckStage, gearDipFor, playerCentrifugalDX, segIdxOf, jsMod,
    wrapTestPlayer, samplePlayer, road10, idleInputs, zeroSin, OFFROAD_SPEED_CAP,
    MAX_SPEED, WIPEOUT_DURATION, PHASE_LAUNCH, min_def, max_def, abs_lt, lt_abs,
    Int.floor_eq_iff]

/-- C9 amended: the off-road rumble added to the lateral offset is the
sum of a deterministic position-keyed sine term and a Math.random term of
amplitude 0.01; runs differing only in the random draw differ in the
lateral offset by exactly (r1 - r2)/100 while agreeing on position and
speed, so the update is deterministic only once the random draw is
fixed. -/
theorem offroad_jitter_decomposition :
    ∀ (sinq : ℚ → ℚ) (rud dt : ℚ) (p : PlayerS), 1 < |p.x| →
      ((offroadStage sinq rud dt p).x
         = p.x + sinq (p.z * 40) * (1/50) + (rud - 1/2) * (1/50) * (1/2)) ∧
      (∀ r2 : ℚ, (offroadStage sinq rud dt p).x - (offroadStage sinq r2 dt p).x
         = (rud - r2) * (1/100)) ∧
      (∀ r2 : ℚ, (offroadStage sinq rud dt p).z = (offroadStage sinq r2 dt p).z ∧
         (offroadStage sinq rud dt p).speed = (offroadStage sinq r2 dt p).speed) := by
  intro sinq rud dt p hx
  have key : ∀ rr : ℚ, (offroadStage sinq rr dt p).x
      = p.x + sinq (p.z * 40) * (1/50) + (rr - 1/2) * (1/50) * (1/2) := by
    intro rr
    unfold offroadStage
    dsimp only
    split
    · split <;> rfl
    · next h => exact absurd hx h
  refine ⟨key rud, ?_, ?_⟩
  · intro r2
    rw [key rud, key r2]
    ring
  · intro r2
    constructor
    · rw [offroadStage_z, offroadStage_z]
    · unfold offroadStage
      dsimp only
      split
      · split <;> rfl
      · rfl

/-- Witness for the amended C9 at a concrete off-track player. -/
theorem offroad_jitter_decomposition_witness :
    1 < |({ samplePlayer with x := 3/2 } : PlayerS).x| ∧
    (offroadStage zeroSin 0 (1/60) { samplePlayer with x := 3/2 }).x
        - (offroadStage zeroSin (1/2) (1/60) { samplePlayer with x := 3/2 }).x
      = (0 - 1/2) * (1/100) := by
  refine ⟨by norm_num [samplePlayer, lt_abs], ?_⟩
  exact (offroad_jitter_decomposition zeroSin 0 (1/60)
    { samplePlayer with x := 3/2 } (by norm_num [samplePlayer, lt_abs])).2.1 (1/2)

-- ---------------------------------------------------------------------------
-- C7: cop wipeout / respawn cooldown
-- ---------------------------------------------------------------------------

/-- C7: the code at the failing input.  The tick that ends the cop
wipeout deactivates the unit and arms respawnTimer with the full
30-second delay, but the very next tick re-spawns the cop immediately:
the waiting branch guards on cop.isWipedOut, which the completion tick
has just cleared, so the respawn delay is never consumed (respawnTimer is
still at the full delay after the re-spawn). -/
theorem cop_respawn_delay_never_consumed :
    (updatePolice samplePlayer road100 (1/60) wipedCopPolice).cop.active = false ∧
    (updatePolice samplePlayer road100 (1/60) wipedCopPolice).cop.isWipedOut = false ∧
    (updatePolice samplePlayer road100 (1/60) wipedCopPolice).respawnTimer
      = COP_RESPAWN_DELAY ∧
    (updatePolice samplePlayer road100 (1/60)
       (updatePolice samplePlayer road100 (1/60) wipedCopPolice)).cop.active = true ∧
    (updatePolice samplePlayer road100 (1/60)
       (updatePolice samplePlayer road100 (1/60) wipedCopPolice)).respawnTimer
      = COP_RESPAWN_DELAY := by
  norm_num [updatePolice, policeSpawnStage, policeWipeoutStage, policeChase,
    policeBustStage, spawnCop, bustProximity, copCentrifugalDX, wrappedDelta,
    segIdxOf, jsMod, wipedCopPolice, samplePolice, samplePlayer, road100,
    COMBAT_THRESHOLD, COP_HEALTH, COP_WIPEOUT_DURATION, COP_RESPAWN_DELAY,
    BUST_RANGE_X, BUST_RANGE_Z, BUST_TIME, min_def, max_def, abs_lt, lt_abs,
    Int.floor_eq_iff]

-- ---------------------------------------------------------------------------
-- C2: bust timer dynamics
-- ---------------------------------------------------------------------------

/-- The race bookkeeping of finishStage never touches the police state. -/
theorem finishStage_police (w : RaceWorld) : (finishStage w).police = w.police := by
  unfold finishStage
  dsimp only
  split <;> split <;> rfl

/-- finishStage either keeps the race state or moves it to FINISHED. -/
theorem finishStage_state (w : RaceWorld) :
    (finishStage w).state = w.state ∨ (finishStage w).state = RaceStateE.FINISHED := by
  unfold finishStage
  dsimp only
  split
  · exact Or.inr rfl
  · split
    · exact Or.inr rfl
    · exact Or.inl rfl

/-- Under the hypotheses of an active chase, updatePolice is the bust
check applied after the chase movement. -/
theorem updatePolice_active_shape (player : PlayerS) (road : List ℚ) (dt : ℚ)
    (s : PoliceState) (hb : s.busted = false) (ha : s.cop.active = true)
    (hw : s.cop.isWipedOut = false) :
    updatePolice player road dt s
      = policeBustStage player ((road.length : ℚ) * 200) dt
          { s with sirenPhase := s.sirenPhase + dt,
                   warningTimer := max 0 (s.warningTimer - dt),
                   cop := policeChase player road dt s.cop } := by
  unfold updatePolice
  dsimp only
  rw [if_neg (by simp [hb])]
  rw [policeSpawnStage_active player ((road.length : ℚ) * 200) dt
    { s with sirenPhase := s.sirenPhase + dt,
             warningTimer := max 0 (s.warningTimer - dt) } ha]
  rw [if_neg (by simp [ha])]
  rw [if_neg (by simp [hw])]

/-- racingResolve moves a RACING world to BUSTED exactly when its police
flag is set. -/
theorem racingResolve_busted (w : RaceWorld) (hst : w.state = RaceStateE.RACING) :
    (racingResolve w).state = RaceStateE.BUSTED ↔
    (racingResolve w).police.busted = true := by
  unfold racingResolve
  dsimp only
  split
  · next hbt =>
    exact ⟨fun _ => hbt, fun _ => rfl⟩
  · next hbt =>
    have hpol : (finishStage w).police = w.police := finishStage_police w
    constructor
    · intro hb2
      exfalso
      rcases finishStage_state w with hs | hs
      · rw [hs, hst] at hb2
        exact absurd hb2 (by simp)
      · rw [hs] at hb2
        exact absurd hb2 (by simp)
    · intro hb2
      exfalso
      rw [hpol] at hb2
      exact hbt hb2

/-- C2: while the cop is active and not wiped out, the bust timer gains
exactly dt on proximity ticks (with BUSTED set exactly when the threshold
is reached by that gain), decays at half rate floored at zero on all
other ticks (never an instant reset), the invariant that an un-busted
timer stays below the threshold is preserved, and a RACING tick ends in
the BUSTED race state exactly when the police flag is set. -/
theorem bust_timer_dynamics :
    (∀ (player : PlayerS) (road : List ℚ) (dt : ℚ) (s : PoliceState),
      s.busted = false → s.cop.active = true → s.cop.isWipedOut = false →
      0 ≤ dt → s.bustTimer < BUST_TIME →
      (bustProximity (updatePolice player road dt s).cop player ((road.length : ℚ) * 200) →
         (updatePolice player road dt s).bustTimer = s.bustTimer + dt ∧
         ((updatePolice player road dt s).busted = true ↔ BUST_TIME ≤ s.bustTimer + dt)) ∧
      (¬ bustProximity (updatePolice player road dt s).cop player ((road.length : ℚ) * 200) →
         (updatePolice player road dt s).bustTimer = max 0 (s.bustTimer - dt * (1/2)) ∧
         s.bustTimer - dt * (1/2) ≤ (updatePolice player road dt s).bustTimer ∧
         (updatePolice player road dt s).busted = false) ∧
      ((updatePolice player road dt s).busted = false →
         (updatePolice player road dt s).bustTimer < BUST_TIME)) ∧
    (∀ (sinq : ℚ → ℚ) (rand : TickRand) (inp : Inputs) (road : List ℚ) (dt : ℚ)
        (w : RaceWorld), w.state = RaceStateE.RACING → w.hitFreezeTimer ≤ 0 →
      ((racingTick sinq rand inp road dt w).state = RaceStateE.BUSTED ↔
       (racingTick sinq rand inp road dt w).police.busted = true)) := by
  constructor
  · intro player road dt s hb ha hw hdt hlt
    rw [updatePolice_active_shape player road dt s hb ha hw]
    rw [policeBustStage_cop]
    unfold policeBustStage
    dsimp only
    refine ⟨?_, ?_, ?_⟩
    · intro hp
      rw [if_pos hp]
      try dsimp only
      split
      · exact ⟨rfl, by simp_all⟩
      · refine ⟨rfl, ?_⟩
        next hnot =>
        simp only [show s.busted = false from hb]
        constructor
        · intro hfalse; exact absurd hfalse (by simp)
        · intro hge; exact absurd hge hnot
    · intro hp
      rw [if_neg hp]
      dsimp only
      refine ⟨rfl, ?_, hb⟩
      exact le_max_right 0 _
    · intro hbustedafter
      by_cases hp : bustProximity (policeChase player road dt s.cop) player
          ((road.length : ℚ) * 200)
      · rw [if_pos hp] at hbustedafter ⊢
        by_cases hge : BUST_TIME ≤ s.bustTimer + dt
        · rw [if_pos hge] at hbustedafter
          dsimp only at hbustedafter
          exact absurd hbustedafter (by simp)
        · rw [if_neg hge] at hbustedafter ⊢
          dsimp only
          linarith [not_le.mp hge]
      · rw [if_neg hp]
        dsimp only
        refine max_lt (by norm_num [BUST_TIME]) (by linarith)
  · intro sinq rand inp road dt w hst hfz
    unfold racingTick
    rw [if_neg (not_lt.mpr hfz)]
    dsimp only
    exact racingResolve_busted _ hst

/-- Witness for C2 at a concrete chase one tick in, where proximity
holds. -/
theorem bust_timer_dynamics_witness :
    (chasePolice.busted = false ∧ chasePolice.cop.active = true ∧
     chasePolice.cop.isWipedOut = false ∧ (0:ℚ) ≤ 1/60 ∧
     chasePolice.bustTimer < BUST_TIME) ∧
    bustProximity (updatePolice samplePlayer road100 (1/60) chasePolice).cop samplePlayer
      ((road100.length : ℚ) * 200) ∧
    ((updatePolice samplePlayer road100 (1/60) chasePolice).bustTimer
       = chasePolice.bustTimer + 1/60 ∧
     ((updatePolice samplePlayer road100 (1/60) chasePolice).busted = true ↔
      BUST_TIME ≤ chasePolice.bustTimer + 1/60)) ∧
    ((racingTick zeroSin sampleTickRand idleInputs road100 (1/60) sampleWorld).state
        = RaceStateE.BUSTED ↔
      (racingTick zeroSin sampleTickRand idleInputs road100 (1/60) sampleWorld).police.busted
        = true) := by
  have hprox : bustProximity (updatePolice samplePlayer road100 (1/60) chasePolice).cop
      samplePlayer ((road100.length : ℚ) * 200) := by
    norm_num [updatePolice, policeSpawnStage, policeWipeoutStage, policeChase,
      policeBustStage, spawnCop, bustProximity, copCentrifugalDX, wrappedDelta,
      segIdxOf, jsMod, chasePolice, samplePolice, samplePlayer, road100,
      COMBAT_THRESHOLD, COP_HEALTH, BUST_RANGE_X, BUST_RANGE_Z, BUST_TIME,
      min_def, max_def, abs_lt, lt_abs, Int.floor_eq_iff]
  refine ⟨⟨rfl, rfl, rfl, by norm_num, by norm_num [chasePolice, samplePolice, BUST_TIME]⟩,
    hprox, ?_, ?_⟩
  · exact (bust_timer_dynamics.1 samplePlayer road100 (1/60) chasePolice rfl rfl rfl
      (by norm_num) (by norm_num [chasePolice, samplePolice, BUST_TIME])).1 hprox
  · exact bust_timer_dynamics.2 zeroSin sampleTickRand idleInputs road100 (1/60)
      sampleWorld rfl (by norm_num [sampleWorld])

-- ---------------------------------------------------------------------------
-- C4: weapon uses lifecycle
-- ---------------------------------------------------------------------------

/-- consumeWeaponUse acts on the weapon slice as consumeView. -/
theorem weaponView_consume (c : CombatState) :
    weaponView (consumeWeaponUse c) = consumeView (weaponView c) := by
  unfold consumeWeaponUse consumeView weaponView applyWeaponStats applyView
  dsimp only
  split
  · split <;> rfl
  · rfl

/-- One iteration of the checkPlayerHits loop either returns the context
untouched or emits exactly one hit and consumes exactly one weapon use. -/
theorem playerHitOne_view (player : PlayerS) (totalZ critRnd : ℚ) (i : ℕ)
    (ctx : HitsCtx) :
    ((playerHitOne player totalZ critRnd i ctx).combat = ctx.combat ∧
     (playerHitOne player totalZ critRnd i ctx).hits = ctx.hits) ∨
    (weaponView (playerHitOne player totalZ critRnd i ctx).combat
        = consumeView (weaponView ctx.combat) ∧
     (playerHitOne player totalZ critRnd i ctx).hits.length = ctx.hits.length + 1) := by
  unfold playerHitOne
  dsimp only
  split
  · exact Or.inl ⟨rfl, rfl⟩
  · split
    · exact Or.inl ⟨rfl, rfl⟩
    · try dsimp only
      split
      · exact Or.inl ⟨rfl, rfl⟩
      · split
        · exact Or.inl ⟨rfl, rfl⟩
        · dsimp only
          refine Or.inr ⟨?_, by simp⟩
          rw [weaponView_consume]
          rfl

/-- Over any index list, the checkPlayerHits fold consumes exactly one
weapon use per emitted hit, and the hit list only grows. -/
theorem hits_fold_view (player : PlayerS) (totalZ : ℚ) (critRnd : ℕ → ℚ) :
    ∀ (l : List ℕ) (ctx : HitsCtx),
      weaponView (l.foldl (fun acc i => playerHitOne player totalZ (critRnd i) i acc)
          ctx).combat
        = consumeView^[(l.foldl (fun acc i => playerHitOne player totalZ (critRnd i) i acc)
            ctx).hits.length - ctx.hits.length] (weaponView ctx.combat) ∧
      ctx.hits.length ≤ (l.foldl (fun acc i => playerHitOne player totalZ (critRnd i) i acc)
          ctx).hits.length := by
  intro l
  induction l with
  | nil => intro ctx; simp
  | cons i l ih =>
    intro ctx
    rw [List.foldl_cons]
    rcases ih (playerHitOne player totalZ (critRnd i) i ctx) with ⟨h1, h2⟩
    rcases playerHitOne_view player totalZ (critRnd i) i ctx with ⟨hc, hh⟩ | ⟨hv, hh⟩
    · rw [hc, hh] at h1
      rw [hh] at h2
      exact ⟨h1, h2⟩
    · rw [hh] at h1 h2
      constructor
      · have hk : (l.foldl (fun acc i => playerHitOne player totalZ (critRnd i) i acc)
            (playerHitOne player totalZ (critRnd i) i ctx)).hits.length - ctx.hits.length
            = ((l.foldl (fun acc i => playerHitOne player totalZ (critRnd i) i acc)
                (playerHitOne player totalZ (critRnd i) i ctx)).hits.length
               - (ctx.hits.length + 1)) + 1 := by omega
        rw [hk, Function.iterate_succ_apply, ← hv]
        exact h1
      · omega

/-- C4: a collected weapon overwrites the held weapon with its full uses
count and derived stats; each landed player hit consumes exactly one use:
a counter of at least 2 is decremented by exactly one with type and stats
unchanged, a counter of 1 reverts to the unlimited fist with the default
derived stats, and a non-positive counter (the fist) is a fixed point so
the revert happens exactly once; one loop step of checkPlayerHits
consumes exactly one use per emitted hit, and over the whole loop the
weapon slice is consumeView iterated once per emitted hit. -/
theorem weapon_uses_lifecycle :
    (∀ (totalZ : ℚ) (player : PlayerS) (c : CombatState) (pk : WeaponPickupS),
      pk.collected = false →
      |wrappedDelta pk.z player.z totalZ| ≤ PICKUP_RANGE_Z →
      |pk.x - player.x| ≤ PICKUP_RANGE_X →
      weaponView (collectPickup totalZ player c pk).1
        = applyView pk.type (wMaxUses pk.type)) ∧
    (∀ c : CombatState, 2 ≤ c.weapon.uses →
      weaponView (consumeWeaponUse c)
        = { weaponView c with
            weapon := { type := c.weapon.type, uses := c.weapon.uses - 1 } }) ∧
    (∀ c : CombatState, c.weapon.uses = 1 →
      weaponView (consumeWeaponUse c) = applyView WeaponType.fist (-1)) ∧
    (∀ c : CombatState, c.weapon.uses ≤ 0 → consumeWeaponUse c = c) ∧
    (∀ (player : PlayerS) (totalZ critRnd : ℚ) (i : ℕ) (ctx : HitsCtx),
      weaponView (playerHitOne player totalZ critRnd i ctx).combat
        = consumeView^[(playerHitOne player totalZ critRnd i ctx).hits.length
            - ctx.hits.length] (weaponView ctx.combat)) ∧
    (∀ (player : PlayerS) (totalZ : ℚ) (critRnd : ℕ → ℚ) (ctx : HitsCtx),
      weaponView (checkPlayerHits player totalZ critRnd ctx).combat
        = consumeView^[(checkPlayerHits player totalZ critRnd ctx).hits.length
            - ctx.hits.length] (weaponView ctx.combat)) := by
  refine ⟨?_, ?_, ?_, ?_, ?_, ?_⟩
  · intro totalZ player c pk hcol hz hx
    unfold collectPickup
    rw [if_neg (by simp [hcol]), if_neg (not_lt.mpr hz), if_neg (not_lt.mpr hx)]
    rfl
  · intro c h
    unfold consumeWeaponUse
    rw [if_pos (by omega)]
    dsimp only
    rw [if_neg (by omega)]
    rfl
  · intro c h
    unfold consumeWeaponUse
    rw [if_pos (by omega)]
    dsimp only
    rw [if_pos (by omega)]
    rfl
  · intro c h
    unfold consumeWeaponUse
    rw [if_neg (not_lt.mpr h)]
  · intro player totalZ critRnd i ctx
    rcases playerHitOne_view player totalZ critRnd i ctx with ⟨hc, hh⟩ | ⟨hv, hh⟩
    · rw [hc, hh]
      simp
    · rw [hv, hh]
      simp
  · intro player totalZ critRnd ctx
    exact (hits_fold_view player totalZ critRnd (List.range ctx.rivals.length) ctx).1

/-- Witness for C4 at concrete states: collecting a club, consuming a
chain with 2 then 1 uses, and the fist fixed point. -/
theorem weapon_uses_lifecycle_witness :
    weaponView (collectPickup 2000 samplePlayer (createCombatState 1) clubPickup).1
      = applyView clubPickup.type (wMaxUses clubPickup.type) ∧
    weaponView (consumeWeaponUse chainCombat2)
      = { weaponView chainCombat2 with
          weapon := { type := chainCombat2.weapon.type,
                      uses := chainCombat2.weapon.uses - 1 } } ∧
    weaponView (consumeWeaponUse chainCombat1) = applyView WeaponType.fist (-1) ∧
    consumeWeaponUse (createCombatState 1) = createCombatState 1 := by
  refine ⟨weapon_uses_lifecycle.1 2000 samplePlayer (createCombatState 1) clubPickup rfl
      (by norm_num [wrappedDelta, clubPickup, samplePlayer, PICKUP_RANGE_Z])
      (by norm_num [clubPickup, samplePlayer, PICKUP_RANGE_X]),
    weapon_uses_lifecycle.2.1 chainCombat2 (by norm_num [chainCombat2]),
    weapon_uses_lifecycle.2.2.1 chainCombat1 rfl,
    weapon_uses_lifecycle.2.2.2.1 (createCombatState 1) (by norm_num [createCombatState])⟩

-- ---------------------------------------------------------------------------
-- C1: single-swing hit rules
-- ---------------------------------------------------------------------------

/-- consumeWeaponUse leaves the attack machinery and the hit set alone. -/
theorem consumeWeaponUse_parts (c : CombatState) :
    (consumeWeaponUse c).isAttacking = c.isAttacking ∧
    (consumeWeaponUse c).attackTimer = c.attackTimer ∧
    (consumeWeaponUse c).attackDuration = c.attackDuration ∧
    (consumeWeaponUse c).attackPhase = c.attackPhase ∧
    (consumeWeaponUse c).hitSet = c.hitSet := by
  unfold consumeWeaponUse applyWeaponStats
  dsimp only
  split
  · split
    · exact ⟨rfl, rfl, rfl, rfl, rfl⟩
    · exact ⟨rfl, rfl, rfl, rfl, rfl⟩
  · exact ⟨rfl, rfl, rfl, rfl, rfl⟩

/-- One checkPlayerHits iteration leaves the attack machinery alone. -/
theorem playerHitOne_ctrl (player : PlayerS) (totalZ critRnd : ℚ) (i : ℕ)
    (ctx : HitsCtx) :
    (playerHitOne player totalZ critRnd i ctx).combat.isAttacking
        = ctx.combat.isAttacking ∧
    (playerHitOne player totalZ critRnd i ctx).combat.attackTimer
        = ctx.combat.attackTimer ∧
    (playerHitOne player totalZ critRnd i ctx).combat.attackDuration
        = ctx.combat.attackDuration ∧
    (playerHitOne player totalZ critRnd i ctx).combat.attackPhase
        = ctx.combat.attackPhase := by
  unfold playerHitOne
  dsimp only
  split
  · exact ⟨rfl, rfl, rfl, rfl⟩
  · split
    · exact ⟨rfl, rfl, rfl, rfl⟩
    · try dsimp only
      split
      · exact ⟨rfl, rfl, rfl, rfl⟩
      · split
        · exact ⟨rfl, rfl, rfl, rfl⟩
        · dsimp only
          rcases consumeWeaponUse_parts
            { ctx.combat with
              hitSet := ctx.combat.hitSet ++ [i],
              comboHits := ctx.combat.comboHits ++ [0],
              rivalStates := markRecentlyHit i ctx.combat.rivalStates }
            with ⟨h1, h2, h3, h4, _⟩
          exact ⟨h1, h2, h3, h4⟩

/-- The checkPlayerHits fold leaves the attack machinery alone. -/
theorem hits_fold_ctrl (player : PlayerS) (totalZ : ℚ) (critRnd : ℕ → ℚ) :
    ∀ (l : List ℕ) (ctx : HitsCtx),
      (l.foldl (fun acc i => playerHitOne player totalZ (critRnd i) i acc)
          ctx).combat.isAttacking = ctx.combat.isAttacking ∧
      (l.foldl (fun acc i => playerHitOne player totalZ (critRnd i) i acc)
          ctx).combat.attackTimer = ctx.combat.attackTimer ∧
      (l.foldl (fun acc i => playerHitOne player totalZ (critRnd i) i acc)
          ctx).combat.attackDuration = ctx.combat.attackDuration ∧
      (l.foldl (fun acc i => playerHitOne player totalZ (critRnd i) i acc)
          ctx).combat.attackPhase = ctx.combat.attackPhase := by
  intro l
  induction l with
  | nil => intro ctx; exact ⟨rfl, rfl, rfl, rfl⟩
  | cons i l ih =>
    intro ctx
    rw [List.foldl_cons]
    rcases ih (playerHitOne player totalZ (critRnd i) i ctx) with ⟨h1, h2, h3, h4⟩
    rcases playerHitOne_ctrl player totalZ (critRnd i) i ctx with ⟨g1, g2, g3, g4⟩
    exact ⟨h1.trans g1, h2.trans g2, h3.trans g3, h4.trans g4⟩

/-- natIdx is injective. -/
theorem natIdx_injective : Function.Injective natIdx := by
  intro a b hab
  unfold natIdx at hab
  exact_mod_cast hab

/-- One checkPlayerHits iteration either changes nothing or registers the
index in the per-swing hit set and emits exactly that one hit, and only
for an index not already in the set. -/
theorem playerHitOne_hitset (player : PlayerS) (totalZ critRnd : ℚ) (i : ℕ)
    (ctx : HitsCtx) :
    playerHitOne player totalZ critRnd i ctx = ctx ∨
    (i ∉ ctx.combat.hitSet ∧
     (playerHitOne player totalZ critRnd i ctx).combat.hitSet
       = ctx.combat.hitSet ++ [i] ∧
     (playerHitOne player totalZ critRnd i ctx).hits.map (fun h2 => h2.targetIndex)
       = ctx.hits.map (fun h2 => h2.targetIndex) ++ [(i : ℤ)]) := by
  unfold playerHitOne
  dsimp only
  split
  · exact Or.inl rfl
  · next him =>
    split
    · exact Or.inl rfl
    · try dsimp only
      split
      · exact Or.inl rfl
      · split
        · exact Or.inl rfl
        · dsimp only
          refine Or.inr ⟨him, ?_, by simp⟩
          rcases consumeWeaponUse_parts
            { ctx.combat with
              hitSet := ctx.combat.hitSet ++ [i],
              comboHits := ctx.combat.comboHits ++ [0],
              rivalStates := markRecentlyHit i ctx.combat.rivalStates }
            with ⟨_, _, _, _, h5⟩
          exact h5

/-- Over any index list, the checkPlayerHits fold appends a duplicate-free
block of fresh indices to the hit set and emits exactly those hits. -/
theorem hits_fold_hitset (player : PlayerS) (totalZ : ℚ) (critRnd : ℕ → ℚ) :
    ∀ (l : List ℕ) (ctx : HitsCtx),
      ∃ ns : List ℕ,
        (l.foldl (fun acc i => playerHitOne player totalZ (critRnd i) i acc)
            ctx).combat.hitSet = ctx.combat.hitSet ++ ns ∧
        (l.foldl (fun acc i => playerHitOne player totalZ (critRnd i) i acc)
            ctx).hits.map (fun h2 => h2.targetIndex)
          = ctx.hits.map (fun h2 => h2.targetIndex) ++ ns.map natIdx ∧
        ns.Nodup ∧ (∀ n ∈ ns, n ∉ ctx.combat.hitSet) := by
  intro l
  induction l with
  | nil => intro ctx; exact ⟨[], by simp, by simp, List.nodup_nil, by simp⟩
  | cons i l ih =>
    intro ctx
    rw [List.foldl_cons]
    rcases playerHitOne_hitset player totalZ (critRnd i) i ctx with heq | ⟨hi, hset, hmap⟩
    · rw [heq]
      exact ih ctx
    · rcases ih (playerHitOne player totalZ (critRnd i) i ctx) with ⟨ns1, h1, h2, h3, h4⟩
      refine ⟨i :: ns1, ?_, ?_, ?_, ?_⟩
      · rw [h1, hset, List.append_assoc]
        rfl
      · rw [h2, hmap, List.append_assoc]
        rfl
      · refine List.nodup_cons.mpr ⟨?_, h3⟩
        intro hmem
        exact h4 i hmem (by rw [hset]; simp)
      · intro n hn
        rcases List.mem_cons.mp hn with hni | hns
        · rw [hni]; exact hi
        · intro hmem
          exact h4 n hns (by rw [hset]; exact List.mem_append_left _ hmem)

/-- checkPlayerHits leaves the attack machinery alone. -/
theorem checkPlayerHits_ctrl (player : PlayerS) (totalZ : ℚ) (critRnd : ℕ → ℚ)
    (ctx : HitsCtx) :
    (checkPlayerHits player totalZ critRnd ctx).combat.isAttacking
        = ctx.combat.isAttacking ∧
    (checkPlayerHits player totalZ critRnd ctx).combat.attackTimer
        = ctx.combat.attackTimer ∧
    (checkPlayerHits player totalZ critRnd ctx).combat.attackDuration
        = ctx.combat.attackDuration ∧
    (checkPlayerHits player totalZ critRnd ctx).combat.attackPhase
        = ctx.combat.attackPhase := by
  unfold checkPlayerHits
  exact hits_fold_ctrl player totalZ critRnd (List.range ctx.rivals.length) ctx

/-- checkPlayerHits appends a duplicate-free block of fresh indices to
the hit set and emits exactly those hits. -/
theorem checkPlayerHits_hitset (player : PlayerS) (totalZ : ℚ) (critRnd : ℕ → ℚ)
    (ctx : HitsCtx) :
    ∃ ns : List ℕ,
      (checkPlayerHits player totalZ critRnd ctx).combat.hitSet
        = ctx.combat.hitSet ++ ns ∧
      (checkPlayerHits player totalZ critRnd ctx).hits.map (fun h2 => h2.targetIndex)
        = ctx.hits.map (fun h2 => h2.targetIndex) ++ ns.map natIdx ∧
      ns.Nodup ∧ (∀ n ∈ ns, n ∉ ctx.combat.hitSet) := by
  unfold checkPlayerHits
  exact hits_fold_hitset player totalZ critRnd (List.range ctx.rivals.length) ctx

/-- The resolve section emits a duplicate-free block of hits against
indices not yet in the swing hit set, records exactly those indices, and
leaves the attack machinery alone. -/
theorem attackResolve_swing (player : PlayerS) (rivals : List RivalS) (totalZ : ℚ)
    (critRnd : ℕ → ℚ) (c : CombatState) :
    ∃ ns : List ℕ,
      (attackResolve player rivals totalZ critRnd c).hits.map (fun h2 => h2.targetIndex)
        = ns.map natIdx ∧
      ns.Nodup ∧ (∀ n ∈ ns, n ∉ c.hitSet) ∧
      (attackResolve player rivals totalZ critRnd c).combat.hitSet = c.hitSet ++ ns ∧
      (attackResolve player rivals totalZ critRnd c).combat.isAttacking = c.isAttacking ∧
      (attackResolve player rivals totalZ critRnd c).combat.attackTimer = c.attackTimer ∧
      (attackResolve player rivals totalZ critRnd c).combat.attackDuration
        = c.attackDuration := by
  unfold attackResolve
  dsimp only
  split
  · exact ⟨[], by simp, List.nodup_nil, by simp, by simp, rfl, rfl, rfl⟩
  · split
    · obtain ⟨ns, h1, h2, h3, h4⟩ := checkPlayerHits_hitset player totalZ critRnd
        { combat := { c with attackPhase := AttackPhase.ACTIVE },
          rivals := rivals, hits := [] }
      obtain ⟨g1, g2, g3, g4⟩ := checkPlayerHits_ctrl player totalZ critRnd
        { combat := { c with attackPhase := AttackPhase.ACTIVE },
          rivals := rivals, hits := [] }
      refine ⟨ns, ?_, h3, h4, ?_, g1, g2, g3⟩
      · dsimp only
        rw [h2]
        simp
      · dsimp only
        rw [h1]
    · exact ⟨[], by simp, List.nodup_nil, by simp, by simp, rfl, rfl, rfl⟩

/-- The close section keeps the emitted hits and either ends the swing or
changes nothing. -/
theorem finishSwing_props (out : AttackOut) :
    (finishSwing out).hits = out.hits ∧
    ((finishSwing out).combat.isAttacking = false ∨
     (finishSwing out).combat = out.combat) := by
  unfold finishSwing
  split
  · exact ⟨rfl, Or.inl rfl⟩
  · exact ⟨rfl, Or.inr rfl⟩

/-- Resolve-then-close emits fresh, duplicate-free hits and either ends
the swing or extends the hit set by exactly those indices. -/
theorem swingStep_core (player : PlayerS) (rivals : List RivalS) (totalZ : ℚ)
    (critRnd : ℕ → ℚ) (c : CombatState) :
    ∃ ns : List ℕ,
      (finishSwing (attackResolve player rivals totalZ critRnd c)).hits.map
          (fun h2 => h2.targetIndex) = ns.map natIdx ∧
      ns.Nodup ∧ (∀ n ∈ ns, n ∉ c.hitSet) ∧
      ((finishSwing (attackResolve player rivals totalZ critRnd c)).combat.isAttacking
          = false ∨
       (finishSwing (attackResolve player rivals totalZ critRnd c)).combat.hitSet
          = c.hitSet ++ ns) := by
  obtain ⟨ns, a1, a2, a3, a4, _, _, _⟩ := attackResolve_swing player rivals totalZ critRnd c
  obtain ⟨f1, f2⟩ := finishSwing_props (attackResolve player rivals totalZ critRnd c)
  refine ⟨ns, ?_, a2, a3, ?_⟩
  · rw [f1, a1]
  · rcases f2 with h | h
    · exact Or.inl h
    · exact Or.inr (by rw [h, a4])

/-- One mid-swing tick emits fresh, duplicate-free hits and either ends
the swing or extends the hit set by exactly those indices. -/
theorem stepAttack_swing (tk : AtkTick) (c : CombatState) (h : c.isAttacking = true) :
    ∃ ns : List ℕ,
      (stepAttack tk c).hits.map (fun h2 => h2.targetIndex) = ns.map natIdx ∧
      ns.Nodup ∧ (∀ n ∈ ns, n ∉ c.hitSet) ∧
      ((stepAttack tk c).combat.isAttacking = false ∨
       (stepAttack tk c).combat.hitSet = c.hitSet ++ ns) := by
  unfold stepAttack updatePlayerAttack
  dsimp only
  split <;>
    first
      | exact swingStep_core tk.player tk.rivals tk.totalZ tk.critRnd _
      | (rw [if_pos h]
         exact swingStep_core tk.player tk.rivals tk.totalZ tk.critRnd _)
      | exact absurd h (by simp_all)

/-- The close section is the identity while the swing is still short of
its duration. -/
theorem finishSwing_open (out : AttackOut)
    (h : ¬ out.combat.attackDuration ≤ out.combat.attackTimer) :
    finishSwing out = out := by
  unfold finishSwing
  rw [if_neg h]

/-- attackResolve emits hits only when the advanced timer lies in the
ACTIVE window, and then tags the phase ACTIVE. -/
theorem attackResolve_phase_shape (player : PlayerS) (rivals : List RivalS)
    (totalZ : ℚ) (critRnd : ℕ → ℚ) (c : CombatState) :
    (attackResolve player rivals totalZ critRnd c).hits = [] ∨
    (WIND_UP ≤ c.attackTimer ∧ c.attackTimer < WIND_UP + ACTIVE_WINDOW ∧
     (attackResolve player rivals totalZ critRnd c).combat.attackPhase
       = AttackPhase.ACTIVE) := by
  unfold attackResolve
  dsimp only
  split
  · exact Or.inl rfl
  · next h1 =>
    split
    · next h2 =>
      obtain ⟨_, _, _, c4⟩ := checkPlayerHits_ctrl player totalZ critRnd
        { combat := { c with attackPhase := AttackPhase.ACTIVE },
          rivals := rivals, hits := [] }
      exact Or.inr ⟨not_lt.mp h1, h2, c4⟩
    · exact Or.inl rfl

/-- Resolve-then-close emits hits only when the advanced timer lies in
the ACTIVE window, and while the swing is not over the phase is tagged
ACTIVE on such a tick. -/
theorem resolveFinish_hits_shape (player : PlayerS) (rivals : List RivalS) (totalZ : ℚ)
    (critRnd : ℕ → ℚ) (c : CombatState) :
    (finishSwing (attackResolve player rivals totalZ critRnd c)).hits = [] ∨
    (WIND_UP ≤ c.attackTimer ∧ c.attackTimer < WIND_UP + ACTIVE_WINDOW ∧
     (c.attackTimer < c.attackDuration →
       (finishSwing (attackResolve player rivals totalZ critRnd c)).combat.attackPhase
         = AttackPhase.ACTIVE)) := by
  obtain ⟨f1, _⟩ := finishSwing_props (attackResolve player rivals totalZ critRnd c)
  obtain ⟨ns, _, _, _, _, _, g2, g3⟩ := attackResolve_swing player rivals totalZ critRnd c
  have hopen : c.attackTimer < c.attackDuration →
      finishSwing (attackResolve player rivals totalZ critRnd c)
        = attackResolve player rivals totalZ critRnd c := by
    intro hlt
    refine finishSwing_open _ ?_
    rw [g2, g3]
    exact not_le.mpr hlt
  rcases attackResolve_phase_shape player rivals totalZ critRnd c with h0 | ⟨p1, p2, p3⟩
  · exact Or.inl (by rw [f1, h0])
  · refine Or.inr ⟨p1, p2, ?_⟩
    intro hlt
    rw [hopen hlt]
    exact p3

/-- updatePlayerAttack emits hits only when a running swing has its
advanced timer in the ACTIVE window, tagging the phase ACTIVE while the
swing is not yet over. -/
theorem updatePlayerAttack_hits_shape (player : PlayerS) (rivals : List RivalS)
    (inp : Inputs) (dt totalZ : ℚ) (critRnd : ℕ → ℚ) (c : CombatState) :
    (updatePlayerAttack player rivals inp dt totalZ critRnd c).hits = [] ∨
    (c.isAttacking = true ∧ WIND_UP ≤ c.attackTimer + dt ∧
     c.attackTimer + dt < WIND_UP + ACTIVE_WINDOW ∧
     (c.attackTimer + dt < c.attackDuration →
       (updatePlayerAttack player rivals inp dt totalZ critRnd c).combat.attackPhase
         = AttackPhase.ACTIVE)) := by
  unfold updatePlayerAttack
  dsimp only
  by_cases h : c.isAttacking = true
  · split <;>
      first
        | (dsimp only
           rw [if_pos h]
           rcases resolveFinish_hits_shape player rivals totalZ critRnd
              { c with cooldownTimer := c.cooldownTimer - dt,
                       attackTimer := c.attackTimer + dt } with h0 | ⟨h1, h2, h3⟩
           · exact Or.inl h0
           · exact Or.inr ⟨h, h1, h2, h3⟩)
        | (rw [if_pos h]
           rcases resolveFinish_hits_shape player rivals totalZ critRnd
              { c with attackTimer := c.attackTimer + dt } with h0 | ⟨h1, h2, h3⟩
           · exact Or.inl h0
           · exact Or.inr ⟨h, h1, h2, h3⟩)
        | (rcases resolveFinish_hits_shape player rivals totalZ critRnd
              { c with cooldownTimer := c.cooldownTimer - dt,
                       attackTimer := c.attackTimer + dt } with h0 | ⟨h1, h2, h3⟩
           · exact Or.inl h0
           · exact Or.inr ⟨h, h1, h2, h3⟩)
        | (rcases resolveFinish_hits_shape player rivals totalZ critRnd
              { c with attackTimer := c.attackTimer + dt } with h0 | ⟨h1, h2, h3⟩
           · exact Or.inl h0
           · exact Or.inr ⟨h, h1, h2, h3⟩)
  · split <;>
      first
        | (rw [if_neg h]
           left
           dsimp only
           split
           · rfl
           · split <;> rfl)
        | (dsimp only
           rw [if_neg h]
           left
           dsimp only
           split
           · rfl
           · split <;> rfl)
        | (left
           dsimp only
           split
           · rfl
           · split <;> rfl)

/-- When no swing is running, updatePlayerAttack either stays idle or
starts a fresh swing in WINDUP with an empty hit set. -/
theorem updatePlayerAttack_start_shape (player : PlayerS) (rivals : List RivalS)
    (inp : Inputs) (dt totalZ : ℚ) (critRnd : ℕ → ℚ) (c : CombatState)
    (hno : c.isAttacking = false) :
    (updatePlayerAttack player rivals inp dt totalZ critRnd c).combat.isAttacking
        = false ∨
    ((updatePlayerAttack player rivals inp dt totalZ critRnd c).combat.isAttacking
        = true ∧
     (updatePlayerAttack player rivals inp dt totalZ critRnd c).combat.hitSet = [] ∧
     (updatePlayerAttack player rivals inp dt totalZ critRnd c).combat.attackPhase
        = AttackPhase.WINDUP) := by
  have hn : ¬ (c.isAttacking = true) := by simp [hno]
  unfold updatePlayerAttack
  dsimp only
  split <;>
    (try rw [if_neg hn]) <;>
    (try dsimp only) <;>
    (split
     · exact Or.inl hno
     · split
       · exact Or.inl hno
       · exact Or.inr ⟨rfl, rfl, rfl⟩)

/-- Along any tick sequence, the hits of one swing name pairwise distinct
targets, all of them outside the hit set the swing started with. -/
theorem swingTrace_nodup (tks : List AtkTick) :
    ∀ c : CombatState, c.isAttacking = true → c.hitSet.Nodup →
      ((swingTrace c tks).map (fun h2 => h2.targetIndex)).Nodup ∧
      (∀ e ∈ (swingTrace c tks).map (fun h2 => h2.targetIndex),
        ∀ n ∈ c.hitSet, e ≠ (n : ℤ)) := by
  induction tks with
  | nil =>
    intro c _ _
    exact ⟨List.nodup_nil, by simp [swingTrace]⟩
  | cons tk tks ih =>
    intro c h hnd
    have hTr : swingTrace c (tk :: tks)
        = (stepAttack tk c).hits ++ swingTrace (stepAttack tk c).combat tks := by
      simp only [swingTrace]
      rw [if_pos h]
    rw [hTr]
    obtain ⟨ns, hmap, hnodup, hfresh, hrest⟩ := stepAttack_swing tk c h
    by_cases hA : (stepAttack tk c).combat.isAttacking = true
    · have hset : (stepAttack tk c).combat.hitSet = c.hitSet ++ ns := by
        rcases hrest with h0 | h0
        · rw [h0] at hA
          exact absurd hA (by simp)
        · exact h0
      have hnd2 : (stepAttack tk c).combat.hitSet.Nodup := by
        rw [hset]
        exact hnd.append hnodup (List.disjoint_left.mpr (fun a ha hb => (hfresh a hb) ha))
      obtain ⟨ihn, ihd⟩ := ih (stepAttack tk c).combat hA hnd2
      rw [List.map_append, hmap]
      constructor
      · refine List.Nodup.append (List.Nodup.map natIdx_injective hnodup) ihn ?_
        refine List.disjoint_left.mpr ?_
        intro e he hetr
        obtain ⟨m, hm, hme⟩ := List.mem_map.mp he
        exact ihd e hetr m (by rw [hset]; exact List.mem_append_right _ hm) hme.symm
      · intro e he n hn
        rcases List.mem_append.mp he with h1 | h2
        · obtain ⟨m, hm, hme⟩ := List.mem_map.mp h1
          intro heq
          have hmn : m = n := natIdx_injective (hme.trans heq)
          exact hfresh m hm (by rw [hmn]; exact hn)
        · exact ihd e h2 n (by rw [hset]; exact List.mem_append_left _ hn)
    · have htr0 : swingTrace (stepAttack tk c).combat tks = [] := by
        cases tks with
        | nil => rfl
        | cons a b =>
          simp only [swingTrace]
          rw [if_neg hA]
      rw [htr0, List.append_nil, hmap]
      constructor
      · exact List.Nodup.map natIdx_injective hnodup
      · intro e he n hn heq
        obtain ⟨m, hm, hme⟩ := List.mem_map.mp he
        have hmn : m = n := natIdx_injective (hme.trans heq)
        exact hfresh m hm (by rw [hmn]; exact hn)

/-- C1: over a whole swing the emitted hits name pairwise distinct rivals
(each rival damaged at most once per swing, however many ticks the
hit-test holds); hits are emitted only on ticks whose advanced timer lies
in the ACTIVE window (tagged ACTIVE while the swing lasts); and a freshly
started swing begins in WINDUP with an empty hit set. -/
theorem single_swing_hit_rules :
    (∀ (tks : List AtkTick) (c : CombatState), c.isAttacking = true → c.hitSet = [] →
      ((swingTrace c tks).map (fun h2 => h2.targetIndex)).Nodup) ∧
    (∀ (player : PlayerS) (rivals : List RivalS) (inp : Inputs) (dt totalZ : ℚ)
        (critRnd : ℕ → ℚ) (c : CombatState),
      (updatePlayerAttack player rivals inp dt totalZ critRnd c).hits ≠ [] →
      c.isAttacking = true ∧ WIND_UP ≤ c.attackTimer + dt ∧
        c.attackTimer + dt < WIND_UP + ACTIVE_WINDOW ∧
        (c.attackTimer + dt < c.attackDuration →
          (updatePlayerAttack player rivals inp dt totalZ critRnd c).combat.attackPhase
            = AttackPhase.ACTIVE)) ∧
    (∀ (player : PlayerS) (rivals : List RivalS) (inp : Inputs) (dt totalZ : ℚ)
        (critRnd : ℕ → ℚ) (c : CombatState),
      c.isAttacking = false →
      (updatePlayerAttack player rivals inp dt totalZ critRnd c).combat.isAttacking
        = true →
      (updatePlayerAttack player rivals inp dt totalZ critRnd c).combat.hitSet = [] ∧
      (updatePlayerAttack player rivals inp dt totalZ critRnd c).combat.attackPhase
        = AttackPhase.WINDUP) := by
  refine ⟨?_, ?_, ?_⟩
  · intro tks c h hset
    exact (swingTrace_nodup tks c h (by rw [hset]; exact List.nodup_nil)).1
  · intro player rivals inp dt totalZ critRnd c hne
    rcases updatePlayerAttack_hits_shape player rivals inp dt totalZ critRnd c
      with h0 | h0
    · exact absurd h0 hne
    · exact h0
  · intro player rivals inp dt totalZ critRnd c hno hatk
    rcases updatePlayerAttack_start_shape player rivals inp dt totalZ critRnd c hno
      with h0 | h0
    · rw [h0] at hatk
      exact absurd hatk (by simp)
    · exact ⟨h0.2.1, h0.2.2⟩

/-- Witness for C1: a one-tick swing trace, a concrete mid-swing tick
that lands a hit, and a fresh punch press starting a swing. -/
theorem single_swing_hit_rules_witness :
    ((swingTrace activeCombat [atkTick1]).map (fun h2 => h2.targetIndex)).Nodup ∧
    (activeCombat.isAttacking = true ∧ WIND_UP ≤ activeCombat.attackTimer + 1/60 ∧
     activeCombat.attackTimer + 1/60 < WIND_UP + ACTIVE_WINDOW ∧
     (activeCombat.attackTimer + 1/60 < activeCombat.attackDuration →
       (updatePlayerAttack samplePlayer [sampleRival] idleInputs (1/60) 2000
           (fun _ => 1) activeCombat).combat.attackPhase = AttackPhase.ACTIVE)) ∧
    ((updatePlayerAttack samplePlayer [sampleRival] punchInputs (1/60) 2000
        (fun _ => 1) (createCombatState 1)).combat.hitSet = [] ∧
     (updatePlayerAttack samplePlayer [sampleRival] punchInputs (1/60) 2000
        (fun _ => 1) (createCombatState 1)).combat.attackPhase
       = AttackPhase.WINDUP) := by
  refine ⟨single_swing_hit_rules.1 [atkTick1] activeCombat rfl rfl,
    single_swing_hit_rules.2.1 samplePlayer [sampleRival] idleInputs (1/60) 2000
      (fun _ => 1) activeCombat ?_,
    single_swing_hit_rules.2.2 samplePlayer [sampleRival] punchInputs (1/60) 2000
      (fun _ => 1) (createCombatState 1) rfl ?_⟩
  · norm_num [updatePlayerAttack, attackResolve, finishSwing, checkPlayerHits,
      playerHitOne, rivalInRange, consumeWeaponUse, applyWeaponStats, markRecentlyHit,
      applyHitToRival, jsRound, wrappedDelta, activeCombat, createCombatState,
      samplePlayer, sampleRival, initRivalCombatState, WIND_UP, ACTIVE_WINDOW,
      RECOVERY, RIVAL_COUNTER_WINDOW,
      TOTAL_ATTACK, CRITICAL_CHANCE, COMBO_THRESHOLD, RIVAL_KNOCKBACK_X,
      wDamage, wRangeX, wRangeZ, wCooldown, List.range_succ, min_def, max_def,
      abs_lt, lt_abs, Int.floor_eq_iff]
  · norm_num [updatePlayerAttack, punchInputs, idleInputs, createCombatState,
      samplePlayer, wCooldown]

-- ---------------------------------------------------------------------------
-- C10: rival finish branches are dead
-- ---------------------------------------------------------------------------

/-- Rival z bounds lifted to the whole rival list. -/
theorem updateRivals_z_bounds (sinq : ℚ → ℚ) (player : PlayerS) (road : List ℚ)
    (dt : ℚ) (rnds : List RivalRand) (rivals : List RivalS)
    (hdt : 0 ≤ dt) (hlen : 0 < road.length)
    (hall : ∀ r ∈ rivals, 0 ≤ r.z ∧ 0 ≤ r.baseSpeed) :
    ∀ r2 ∈ (updateRivals sinq player road dt rnds rivals).1,
      0 ≤ r2.z ∧ r2.z < (road.length : ℚ) * 200 := by
  intro r2 h2
  unfold updateRivals at h2
  dsimp only at h2
  obtain ⟨u, hu, hu2⟩ := List.mem_map.mp h2
  obtain ⟨pr, hpr, hpr2⟩ := List.mem_map.mp hu
  obtain ⟨h1, _⟩ := List.mem_zip hpr
  have hb := updateRival_z_bounds sinq player road dt pr.2 pr.1 hdt
    (hall pr.1 h1).1 (hall pr.1 h1).2 hlen
  rw [← hu2, ← hpr2]
  exact hb

/-- Knockback does not move a rival forward or back. -/
theorem applyHitToRival_z (knock : ℚ) (r : RivalS) : (applyHitToRival knock r).z = r.z := rfl

/-- One checkPlayerHits iteration preserves any property of rival
positions. -/
theorem playerHitOne_zpred (player : PlayerS) (totalZ critRnd : ℚ) (i : ℕ)
    (ctx : HitsCtx) (P : ℚ → Prop) (h : ∀ r ∈ ctx.rivals, P r.z) :
    ∀ r ∈ (playerHitOne player totalZ critRnd i ctx).rivals, P r.z := by
  unfold playerHitOne
  dsimp only
  split
  · exact h
  · split
    · exact h
    · next r0 hsome =>
      split
      · exact h
      · split
        · exact h
        · dsimp only
          intro r2 hr2
          rcases List.mem_or_eq_of_mem_set hr2 with hmem | heq2
          · exact h r2 hmem
          · rw [heq2]
            exact h r0 (List.get?_mem hsome)

/-- The checkPlayerHits fold preserves any property of rival positions. -/
theorem hits_fold_zpred (player : PlayerS) (totalZ : ℚ) (critRnd : ℕ → ℚ)
    (P : ℚ → Prop) :
    ∀ (l : List ℕ) (ctx : HitsCtx), (∀ r ∈ ctx.rivals, P r.z) →
      ∀ r ∈ (l.foldl (fun acc i => playerHitOne player totalZ (critRnd i) i acc)
          ctx).rivals, P r.z := by
  intro l
  induction l with
  | nil => intro ctx h; exact h
  | cons i l ih =>
    intro ctx h
    rw [List.foldl_cons]
    exact ih (playerHitOne player totalZ (critRnd i) i ctx)
      (playerHitOne_zpred player totalZ (critRnd i) i ctx P h)

/-- checkPlayerHits preserves any property of rival positions. -/
theorem checkPlayerHits_zpred (player : PlayerS) (totalZ : ℚ) (critRnd : ℕ → ℚ)
    (ctx : HitsCtx) (P : ℚ → Prop) (h : ∀ r ∈ ctx.rivals, P r.z) :
    ∀ r ∈ (checkPlayerHits player totalZ critRnd ctx).rivals, P r.z := by
  unfold checkPlayerHits
  exact hits_fold_zpred player totalZ critRnd P (List.range ctx.rivals.length) ctx h

/-- The close section does not touch the rival list. -/
theorem finishSwing_rivals (out : AttackOut) : (finishSwing out).rivals = out.rivals := by
  unfold finishSwing
  split <;> rfl

/-- attackResolve preserves any property of rival positions. -/
theorem attackResolve_zpred (player : PlayerS) (rivals : List RivalS) (totalZ : ℚ)
    (critRnd : ℕ → ℚ) (c : CombatState) (P : ℚ → Prop)
    (h : ∀ r ∈ rivals, P r.z) :
    ∀ r ∈ (attackResolve player rivals totalZ critRnd c).rivals, P r.z := by
  unfold attackResolve
  dsimp only
  split
  · exact h
  · split
    · exact checkPlayerHits_zpred player totalZ critRnd _ P h
    · exact h

/-- updatePlayerAttack preserves any property of rival positions. -/
theorem updatePlayerAttack_zpred (player : PlayerS) (rivals : List RivalS)
    (inp : Inputs) (dt totalZ : ℚ) (critRnd : ℕ → ℚ) (c : CombatState)
    (P : ℚ → Prop) (h : ∀ r ∈ rivals, P r.z) :
    ∀ r ∈ (updatePlayerAttack player rivals inp dt totalZ critRnd c).rivals, P r.z := by
  unfold updatePlayerAttack
  dsimp only
  split <;>
    (try dsimp only) <;>
    first
      | (split <;>
          first
            | (rw [finishSwing_rivals]
               exact attackResolve_zpred _ _ _ _ _ P h)
            | (dsimp only
               split
               · exact h
               · split <;> exact h)
            | (split
               · exact h
               · split <;> exact h))
      | (rw [finishSwing_rivals]
         exact attackResolve_zpred _ _ _ _ _ P h)
      | (split
         · exact h
         · split <;> exact h)

/-- One rival attack step does not move its rival forward or back. -/
theorem rivalAttackOne_z (player : PlayerS) (totalZ dt atkRnd : ℚ)
    (rs : RivalCombatState) (rival : RivalS) :
    (rivalAttackOne player totalZ dt atkRnd rs rival).2.1.z = rival.z := by
  unfold rivalAttackOne rivalAttackCore
  dsimp only
  split
  · rfl
  · split
    · rfl
    · split
      · rfl
      · split
        · rfl
        · split
          · rfl
          · split
            · rfl
            · split <;> (try split) <;> rfl

/-- The updateRivalAttacks fold preserves any property of rival
positions. -/
theorem rivalAttacks_fold_zpred (player : PlayerS) (totalZ dt : ℚ) (atkRnd : ℕ → ℚ)
    (P : ℚ → Prop) :
    ∀ (l : List ℕ) (acc : List RivalCombatState × List RivalS × List CombatHitS),
      (∀ r ∈ acc.2.1, P r.z) →
      ∀ r ∈ (l.foldl
          (fun (acc : List RivalCombatState × List RivalS × List CombatHitS) i =>
            match acc.1.get? i, acc.2.1.get? i with
            | some rs, some rival =>
                let one := rivalAttackOne player totalZ dt (atkRnd i) rs rival
                (acc.1.set i one.1, acc.2.1.set i one.2.1, acc.2.2 ++ one.2.2)
            | _, _ => acc) acc).2.1, P r.z := by
  intro l
  induction l with
  | nil => intro acc h; exact h
  | cons i l ih =>
    intro acc h
    rw [List.foldl_cons]
    refine ih _ ?_
    dsimp only
    split
    · next rs0 rival0 _ hsome2 =>
      dsimp only
      intro r2 hr2
      rcases List.mem_or_eq_of_mem_set hr2 with hmem | heq2
      · exact h r2 hmem
      · rw [heq2, rivalAttackOne_z]
        exact h rival0 (List.get?_mem hsome2)
    · exact h

/-- updateRivalAttacks preserves any property of rival positions. -/
theorem updateRivalAttacks_zpred (player : PlayerS) (totalZ dt : ℚ) (atkRnd : ℕ → ℚ)
    (c : CombatState) (rivals : List RivalS) (P : ℚ → Prop)
    (h : ∀ r ∈ rivals, P r.z) :
    ∀ r ∈ (updateRivalAttacks player totalZ dt atkRnd c rivals).2.1, P r.z := by
  unfold updateRivalAttacks
  dsimp only
  exact rivalAttacks_fold_zpred player totalZ dt atkRnd P
    (List.range rivals.length) (c.rivalStates, rivals, []) h

/-- updateCombat preserves any property of rival positions. -/
theorem updateCombat_zpred (player : PlayerS) (rivals : List RivalS) (inp : Inputs)
    (dt totalZ : ℚ) (critRnd atkRnd : ℕ → ℚ) (c : CombatState) (P : ℚ → Prop)
    (h : ∀ r ∈ rivals, P r.z) :
    ∀ r ∈ (updateCombat player rivals inp dt totalZ critRnd atkRnd c).rivals, P r.z := by
  unfold updateCombat
  dsimp only
  exact updateRivalAttacks_zpred player totalZ dt atkRnd _ _ P
    (updatePlayerAttack_zpred player rivals inp dt totalZ critRnd _ P h)

/-- Applying one combat hit preserves any property of rival positions. -/
theorem applyCombatHit_zpred (P : ℚ → Prop)
    (st : PlayerS × List RivalS × PoliceState × ℚ) (hit : CombatHitS)
    (h : ∀ r ∈ st.2.1, P r.z) :
    ∀ r ∈ (applyCombatHit st hit).2.1, P r.z := by
  unfold applyCombatHit
  dsimp only
  split
  · split
    · exact h
    · next r0 hsome =>
      dsimp only
      intro r2 hr2
      rcases List.mem_or_eq_of_mem_set hr2 with hmem | heq2
      · exact h r2 hmem
      · rw [heq2]
        split <;> exact h r0 (List.get?_mem hsome)
  · exact h

/-- The hit-application fold preserves any property of rival positions. -/
theorem hitsApply_fold_zpred (P : ℚ → Prop) :
    ∀ (hits : List CombatHitS) (st : PlayerS × List RivalS × PoliceState × ℚ),
      (∀ r ∈ st.2.1, P r.z) →
      ∀ r ∈ (hits.foldl applyCombatHit st).2.1, P r.z := by
  intro hits
  induction hits with
  | nil => intro st h; exact h
  | cons hit hits ih =>
    intro st h
    rw [List.foldl_cons]
    exact ih (applyCombatHit st hit) (applyCombatHit_zpred P st hit h)

/-- One checkPlayerHits iteration keeps the rival count. -/
theorem playerHitOne_len (player : PlayerS) (totalZ critRnd : ℚ) (i : ℕ)
    (ctx : HitsCtx) :
    (playerHitOne player totalZ critRnd i ctx).rivals.length = ctx.rivals.length := by
  unfold playerHitOne
  dsimp only
  split
  · rfl
  · split
    · rfl
    · split
      · rfl
      · split
        · rfl
        · dsimp only
          simp [List.length_set]

/-- The checkPlayerHits fold keeps the rival count. -/
theorem hits_fold_len (player : PlayerS) (totalZ : ℚ) (critRnd : ℕ → ℚ) :
    ∀ (l : List ℕ) (ctx : HitsCtx),
      (l.foldl (fun acc i => playerHitOne player totalZ (critRnd i) i acc)
          ctx).rivals.length = ctx.rivals.length := by
  intro l
  induction l with
  | nil => intro ctx; rfl
  | cons i l ih =>
    intro ctx
    rw [List.foldl_cons, ih, playerHitOne_len]

/-- checkPlayerHits keeps the rival count. -/
theorem checkPlayerHits_len (player : PlayerS) (totalZ : ℚ) (critRnd : ℕ → ℚ)
    (ctx : HitsCtx) :
    (checkPlayerHits player totalZ critRnd ctx).rivals.length = ctx.rivals.length := by
  unfold checkPlayerHits
  exact hits_fold_len player totalZ critRnd (List.range ctx.rivals.length) ctx

/-- attackResolve keeps the rival count. -/
theorem attackResolve_len (player : PlayerS) (rivals : List RivalS) (totalZ : ℚ)
    (critRnd : ℕ → ℚ) (c : CombatState) :
    (attackResolve player rivals totalZ critRnd c).rivals.length = rivals.length := by
  unfold attackResolve
  dsimp only
  split
  · rfl
  · split
    · exact checkPlayerHits_len player totalZ critRnd _
    · rfl

/-- updatePlayerAttack keeps the rival count. -/
theorem updatePlayerAttack_len (player : PlayerS) (rivals : List RivalS)
    (inp : Inputs) (dt totalZ : ℚ) (critRnd : ℕ → ℚ) (c : CombatState) :
    (updatePlayerAttack player rivals inp dt totalZ critRnd c).rivals.length
      = rivals.length := by
  unfold updatePlayerAttack
  dsimp only
  split <;>
    (try dsimp only) <;>
    first
      | (split <;>
          first
            | (rw [finishSwing_rivals]
               exact attackResolve_len _ _ _ _ _)
            | (dsimp only
               split
               · rfl
               · split <;> rfl)
            | (split
               · rfl
               · split <;> rfl))
      | (rw [finishSwing_rivals]
         exact attackResolve_len _ _ _ _ _)
      | (split
         · rfl
         · split <;> rfl)

/-- The updateRivalAttacks fold keeps the rival count. -/
theorem rivalAttacks_fold_len (player : PlayerS) (totalZ dt : ℚ) (atkRnd : ℕ → ℚ) :
    ∀ (l : List ℕ) (acc : List RivalCombatState × List RivalS × List CombatHitS),
      (l.foldl
          (fun (acc : List RivalCombatState × List RivalS × List CombatHitS) i =>
            match acc.1.get? i, acc.2.1.get? i with
            | some rs, some rival =>
                let one := rivalAttackOne player totalZ dt (atkRnd i) rs rival
                (acc.1.set i one.1, acc.2.1.set i one.2.1, acc.2.2 ++ one.2.2)
            | _, _ => acc) acc).2.1.length = acc.2.1.length := by
  intro l
  induction l with
  | nil => intro acc; rfl
  | cons i l ih =>
    intro acc
    rw [List.foldl_cons, ih]
    dsimp only
    split
    · dsimp only
      simp [List.length_set]
    · rfl

/-- updateRivalAttacks keeps the rival count. -/
theorem updateRivalAttacks_len (player : PlayerS) (totalZ dt : ℚ) (atkRnd : ℕ → ℚ)
    (c : CombatState) (rivals : List RivalS) :
    (updateRivalAttacks player totalZ dt atkRnd c rivals).2.1.length = rivals.length := by
  unfold updateRivalAttacks
  dsimp only
  exact rivalAttacks_fold_len player totalZ dt atkRnd (List.range rivals.length)
    (c.rivalStates, rivals, [])

/-- updateCombat keeps the rival count. -/
theorem updateCombat_len (player : PlayerS) (rivals : List RivalS) (inp : Inputs)
    (dt totalZ : ℚ) (critRnd atkRnd : ℕ → ℚ) (c : CombatState) :
    (updateCombat player rivals inp dt totalZ critRnd atkRnd c).rivals.length
      = rivals.length := by
  unfold updateCombat
  dsimp only
  rw [updateRivalAttacks_len, updatePlayerAttack_len]

/-- Applying one combat hit keeps the rival count. -/
theorem applyCombatHit_len (st : PlayerS × List RivalS × PoliceState × ℚ)
    (hit : CombatHitS) :
    (applyCombatHit st hit).2.1.length = st.2.1.length := by
  unfold applyCombatHit
  dsimp only
  split
  · split
    · rfl
    · dsimp only
      simp [List.length_set]
  · rfl

/-- The hit-application fold keeps the rival count. -/
theorem hitsApply_fold_len :
    ∀ (hits : List CombatHitS) (st : PlayerS × List RivalS × PoliceState × ℚ),
      (hits.foldl applyCombatHit st).2.1.length = st.2.1.length := by
  intro hits
  induction hits with
  | nil => intro st; rfl
  | cons hit hits ih =>
    intro st
    rw [List.foldl_cons, ih, applyCombatHit_len]

/-- updateRivals produces one rival per zipped (rival, randoms) pair. -/
theorem updateRivals_len (sinq : ℚ → ℚ) (player : PlayerS) (road : List ℚ)
    (dt : ℚ) (rnds : List RivalRand) (rivals : List RivalS) :
    (updateRivals sinq player road dt rnds rivals).1.length
      = min rivals.length rnds.length := by
  unfold updateRivals
  simp

/-- The rival finish-recording fold does nothing while every rival is
short of the race distance. -/
theorem finish_fold_noop (raceDistance raceTimer : ℚ) :
    ∀ (rivals : List RivalS) (acc : List RaceResultS × ℕ),
      (∀ r ∈ rivals, r.z < raceDistance) →
      rivals.foldl
        (fun acc r =>
          if raceDistance ≤ r.z ∧ ¬ acc.1.any (fun res => res.name = r.name) then
            (acc.1 ++ [{ name := r.name, position := acc.2, time := raceTimer }], acc.2 + 1)
          else acc) acc = acc := by
  intro rivals
  induction rivals with
  | nil => intro acc _; rfl
  | cons r rs ih =>
    intro acc hall
    rw [List.foldl_cons]
    try dsimp only
    rw [if_neg (fun hc => absurd hc.1 (not_le.mpr (hall r (List.mem_cons_self r rs))))]
    exact ih acc (fun r2 h2 => hall r2 (List.mem_cons_of_mem r h2))

/-- recordRivalFinishes records nothing while every rival is short of the
race distance. -/
theorem recordRivalFinishes_noop (raceDistance raceTimer : ℚ) (rivals : List RivalS)
    (results : List RaceResultS) (nextPosition : ℕ)
    (hall : ∀ r ∈ rivals, r.z < raceDistance) :
    recordRivalFinishes raceDistance raceTimer rivals results nextPosition
      = (results, nextPosition) := by
  unfold recordRivalFinishes
  exact finish_fold_noop raceDistance raceTimer rivals (results, nextPosition) hall

/-- With every rival short of the race distance, an unfinished player and
at least one rival, finishStage records at most the player. -/
theorem finishStage_only_player (w : RaceWorld)
    (hr : ∀ r ∈ w.rivals, r.z < w.raceDistance)
    (hnf : w.playerFinished = false) (hres : w.results = [])
    (hrl : w.rivals ≠ []) :
    ((finishStage w).results = [] ∧ (finishStage w).state = w.state) ∨
    ((finishStage w).results
       = [{ name := "YOU", position := w.nextPosition, time := w.raceTimer }] ∧
     (finishStage w).state = RaceStateE.FINISHED) := by
  unfold finishStage
  dsimp only
  rw [recordRivalFinishes_noop w.raceDistance w.raceTimer w.rivals w.results
    w.nextPosition hr]
  try dsimp only
  by_cases hz : w.raceDistance ≤ w.player.z
  · have hc1 : w.playerFinished = false ∧ w.raceDistance ≤ w.player.z := ⟨hnf, hz⟩
    rw [if_pos hc1]
    rw [if_neg (by simp)]
    right
    refine ⟨?_, rfl⟩
    rw [hres]
    simp
  · have hc1n : ¬ (w.playerFinished = false ∧ w.raceDistance ≤ w.player.z) :=
      fun hc => hz hc.2
    rw [if_neg hc1n]
    try dsimp only
    have hforce : ¬ (w.playerFinished = false ∧ w.rivals.length ≤ w.results.length) := by
      rintro ⟨_, hle⟩
      rw [hres] at hle
      simp at hle
      exact hrl hle
    rw [if_neg hforce]
    left
    exact ⟨hres, rfl⟩

/-- Lifting finishStage_only_player through the bust dispatch. -/
theorem racingResolve_only_player (w : RaceWorld)
    (hr : ∀ r ∈ w.rivals, r.z < w.raceDistance)
    (hnf : w.playerFinished = false) (hres : w.results = [])
    (hrl : w.rivals ≠ []) :
    (racingResolve w).results = [] ∨
    ((racingResolve w).results
       = [{ name := "YOU", position := w.nextPosition, time := w.raceTimer }] ∧
     (racingResolve w).state = RaceStateE.FINISHED) := by
  unfold racingResolve
  dsimp only
  split
  · exact Or.inl hres
  · rcases finishStage_only_player w hr hnf hres hrl with ⟨h1, _⟩ | ⟨h1, h2⟩
    · exact Or.inl h1
    · exact Or.inr ⟨h1, h2⟩

/-- C10: the race distance is the full track length after a rebuild and
the initial race distance bounds every track length from above; rival
positions stay inside [0, track length) after each update; the rival
finish-recording loop is a no-op whenever every rival is short of the
race distance; and a RACING tick under those reachable-race conditions
either records nothing or records exactly the player, so the rival
finish branch and the all-rivals-finished forced finish never run. -/
theorem rival_finish_branches_dead :
    (∀ tid : ℤ, rebuildRaceDistance tid = trackTotalLength tid) ∧
    (∀ tid : ℤ, trackTotalLength tid ≤ initialRaceDistance) ∧
    (∀ (sinq : ℚ → ℚ) (player : PlayerS) (road : List ℚ) (dt : ℚ)
        (rnds : List RivalRand) (rivals : List RivalS),
      0 ≤ dt → 0 < road.length →
      (∀ r ∈ rivals, 0 ≤ r.z ∧ 0 ≤ r.baseSpeed) →
      ∀ r2 ∈ (updateRivals sinq player road dt rnds rivals).1,
        0 ≤ r2.z ∧ r2.z < (road.length : ℚ) * 200) ∧
    (∀ (raceDistance raceTimer : ℚ) (rivals : List RivalS)
        (results : List RaceResultS) (nextPosition : ℕ),
      (∀ r ∈ rivals, r.z < raceDistance) →
      recordRivalFinishes raceDistance raceTimer rivals results nextPosition
        = (results, nextPosition)) ∧
    (∀ (sinq : ℚ → ℚ) (rand : TickRand) (inp : Inputs) (road : List ℚ) (dt : ℚ)
        (w : RaceWorld),
      w.hitFreezeTimer ≤ 0 → 0 ≤ dt → 0 < road.length →
      (∀ r ∈ w.rivals, 0 ≤ r.z ∧ 0 ≤ r.baseSpeed) →
      (road.length : ℚ) * 200 ≤ w.raceDistance →
      w.results = [] → w.playerFinished = false →
      w.rivals.length ≤ rand.rivalRnds.length → w.rivals ≠ [] →
      ((racingTick sinq rand inp road dt w).results = [] ∨
       ((racingTick sinq rand inp road dt w).results
          = [{ name := "YOU", position := w.nextPosition, time := w.raceTimer + dt }] ∧
        (racingTick sinq rand inp road dt w).state = RaceStateE.FINISHED))) := by
  refine ⟨fun tid => rfl, ?_, ?_, ?_, ?_⟩
  · intro tid
    have hk : (max 0 (min 3 tid)).toNat ≤ 3 := by omega
    unfold trackTotalLength generatedRoadLength initialRaceDistance SEGMENT_LENGTH
    set k := (max 0 (min 3 tid)).toNat with hkdef
    clear_value k
    interval_cases k <;>
      norm_num [TRACK_SEGMENT_COUNTS, List.getD_cons_zero, List.getD_cons_succ]
  · exact fun sinq player road dt rnds rivals hdt hlen hall =>
      updateRivals_z_bounds sinq player road dt rnds rivals hdt hlen hall
  · exact fun raceDistance raceTimer rivals results nextPosition hall =>
      recordRivalFinishes_noop raceDistance raceTimer rivals results nextPosition hall
  · intro sinq rand inp road dt w hfz hdt hlen hall hrd hres hnf hlenr hne
    unfold racingTick
    rw [if_neg (not_lt.mpr hfz)]
    dsimp only
    apply racingResolve_only_player
    · intro r hr
      try dsimp only at hr ⊢
      refine lt_of_lt_of_le ?_ hrd
      refine hitsApply_fold_zpred (fun z => z < (road.length : ℚ) * 200) _ _ ?_ r hr
      refine updateCombat_zpred _ _ _ _ _ _ _ _
        (fun z => z < (road.length : ℚ) * 200) ?_
      intro r2 hr2
      exact (updateRivals_z_bounds sinq _ road dt rand.rivalRnds w.rivals hdt hlen hall
        r2 hr2).2
    · exact hnf
    · exact hres
    · intro hcon
      try dsimp only at hcon
      have hL := congrArg List.length hcon
      rw [hitsApply_fold_len] at hL
      try dsimp only at hL
      rw [updateCombat_len, updateRivals_len] at hL
      simp only [List.length_nil] at hL
      have h0 : 0 < w.rivals.length := List.length_pos.mpr hne
      omega

/-- Witness for C10 at the sample world: track 0 rebuild, track 3 bound,
one updated rival staying in bounds, a no-op finish recording, and one
concrete RACING tick. -/
theorem rival_finish_branches_dead_witness :
    rebuildRaceDistance 0 = trackTotalLength 0 ∧
    trackTotalLength 3 ≤ initialRaceDistance ∧
    (∀ r2 ∈ (updateRivals zeroSin samplePlayer road100 (1/60)
        [sampleRivalRand] [sampleRival]).1,
      0 ≤ r2.z ∧ r2.z < (road100.length : ℚ) * 200) ∧
    recordRivalFinishes 1000 0 [sampleRival] [] 1 = ([], 1) ∧
    ((racingTick zeroSin sampleTickRand idleInputs road100 (1/60) sampleWorld).results
        = [] ∨
     ((racingTick zeroSin sampleTickRand idleInputs road100 (1/60) sampleWorld).results
        = [{ name := "YOU", position := sampleWorld.nextPosition,
             time := sampleWorld.raceTimer + 1/60 }] ∧
      (racingTick zeroSin sampleTickRand idleInputs road100 (1/60) sampleWorld).state
        = RaceStateE.FINISHED)) := by
  refine ⟨rival_finish_branches_dead.1 0, rival_finish_branches_dead.2.1 3,
    rival_finish_branches_dead.2.2.1 zeroSin samplePlayer road100 (1/60)
      [sampleRivalRand] [sampleRival] (by norm_num) (by simp [road100]) ?_,
    rival_finish_branches_dead.2.2.2.1 1000 0 [sampleRival] [] 1 ?_,
    rival_finish_branches_dead.2.2.2.2 zeroSin sampleTickRand idleInputs road100 (1/60)
      sampleWorld (by norm_num [sampleWorld]) (by norm_num) (by simp [road100]) ?_
      (by norm_num [sampleWorld, road100]) rfl rfl
      (by simp [sampleWorld, sampleTickRand]) (by simp [sampleWorld])⟩
  · intro r hrmem
    rw [List.mem_singleton.mp hrmem]
    norm_num [sampleRival]
  · intro r hrmem
    rw [List.mem_singleton.mp hrmem]
    norm_num [sampleRival]
  · intro r hrmem
    have hx : r = sampleRival := by
      simpa [sampleWorld] using hrmem
    rw [hx]
    norm_num [sampleRival]

end RoadRage
